import Mathlib

/-!
# hcid/dbus-adapter.c: the adapter request dispatcher and its handlers

A shallow embedding of `src/hcid/dbus-adapter.c`.

* C strings are `String`; a pointer that may be `NULL` is an `Option`.
* `uint8_t` / `uint32_t` values are `Nat`, reduced explicitly where the C type truncates.
* Everything the file reaches through a header that is not part of the sources
  (`dbus.h`, the HCI library, libdbus) is either a parameter (`dbus_h`) or a small
  definition whose doc comment says what it stands for.
* Calls that leave the process (HCI commands, attribute store, signals) are recorded,
  in program order, in a log.
-/

namespace Hcid

/-! ## Messages -/

/-- The values a reply carries (`dbus_message_append_args`). -/
inductive DBusArg where
  | string (s : String)
  | array_string (xs : List String)
  deriving DecidableEq

/-- An inbound method call, as far as `dbus-adapter.c` looks at it:
`dbus_message_get_path`, `_get_interface`, `_get_member`, `_get_signature`, `_get_sender`. -/
structure DBusMessage where
  path : String
  iface : String
  member : String
  signature : String
  sender : String
  deriving DecidableEq

/-- Modelled from the spec: the outbound message (libdbus and `dbus.c` are not part of the
sources). "A response is either a success payload (ordered ordinary values) or a failure
(symbolic error code)"; each constructor is the message built by the function of the same
name for the given arguments. -/
inductive Reply where
  | method_return (args : List DBusArg)
  | failure (ecode : Nat)
  | error_failed (err : Int)
  | error_no_such_adapter
  | error_out_of_memory
  | error_discover_in_progress
  | error_not_authorized
  deriving DecidableEq

/-- Modelled from the spec: `bluez_new_failure_msg(msg, ecode)` of `dbus.c` (not part of the
sources) builds the failure response that carries the error code `ecode`. -/
def bluez_new_failure_msg (_msg : DBusMessage) (ecode : Nat) : Option Reply :=
  some (Reply.failure ecode)

/-- The constants `dbus-adapter.c` takes from `dbus.h`, which is not part of the sources.
They are parameters of the embedding: nothing is assumed about their values except where
a theorem says so. -/
structure dbus_h where
  ADAPTER_INTERFACE : String
  ADAPTER_ROOT_ID : Nat
  BLUEZ_EDBUS_UNKNOWN_METHOD : Nat
  BLUEZ_EDBUS_WRONG_SIGNATURE : Nat
  BLUEZ_EDBUS_WRONG_PARAM : Nat
  BLUEZ_EDBUS_UNKNOWN_PATH : Nat
  BLUEZ_ESYSTEM_OFFSET : Nat
  BLUEZ_EBT_OFFSET : Nat
  BLUEZ_EDBUS_NO_MEM : Nat
  DEV_SIG_MINOR_CLASS_CHANGED : String
  DEV_SIG_BONDING_REMOVED : String
  MODE_OFF : String
  MODE_CONNECTABLE : String
  MODE_DISCOVERABLE : String
  MODE_UNKNOWN : String

/-- The fields of `struct hci_dbus_data` (declared in `dbus.h`) that `dbus-adapter.c` uses. -/
structure hci_dbus_data where
  dev_id : Nat
  path_id : Nat
  mode : Nat
  discoverable_timeout : Nat
  requestor_name : Option String
  deriving DecidableEq

/-! ## The dispatcher `msg_func_device` -/

/-- One row of a handler table: `struct service_data { name, handler_func, signature }`.
A handler receives the message and `data`; `ω` is everything else it can reach (controller,
attribute store, bus). It returns the reply pointer (`none` is `NULL`). The row
`{ NULL, NULL, NULL }` that ends the C array is the end of the list. -/
structure service_data (ω : Type) where
  name : String
  handler_func : DBusMessage → hci_dbus_data → ω → Option Reply × hci_dbus_data × ω
  signature : String

/-- The local variables of `msg_func_device` that the scan loop changes, together with
`invoked`: the table positions whose `handler_func` has been called, in call order. -/
structure Scan (ω : Type) where
  reply : Option Reply
  err : Nat
  invoked : List Nat
  data : hci_dbus_data
  world : ω

/-- The loop `for (; handlers->name != NULL; handlers++)` of `msg_func_device`; `i` is the
table position of the head of `handlers`. -/
def scan_handlers {ω : Type} (K : dbus_h) (msg : DBusMessage) :
    List (service_data ω) → Nat → Scan ω → Scan ω
  | [], _, st => st
  | h :: hs, i, st =>
    if h.name ≠ msg.member then
      scan_handlers K msg hs (i + 1) st
    else if h.signature = msg.signature then
      let r := h.handler_func msg st.data st.world
      { reply := r.1, err := 0, invoked := st.invoked ++ [i], data := r.2.1, world := r.2.2 }
    else
      scan_handlers K msg hs (i + 1) { st with err := K.BLUEZ_EDBUS_WRONG_SIGNATURE }

/-- The C enumeration `DBusHandlerResult`, the two values `msg_func_device` returns. -/
inductive DBusHandlerResult where
  | HANDLED
  | NOT_YET_HANDLED
  deriving DecidableEq

/-- What one call of `msg_func_device` does: its return value, the messages handed to
`dbus_connection_send`, the handlers it called, and the state it leaves. -/
structure Dispatch (ω : Type) where
  result : DBusHandlerResult
  sent : List Reply
  invoked : List Nat
  data : hci_dbus_data
  world : ω

/-- The function `msg_func_device`. -/
def msg_func_device {ω : Type} (K : dbus_h) (handlers : List (service_data ω))
    (msg : DBusMessage) (data : hci_dbus_data) (w : ω) : Dispatch ω :=
  if K.ADAPTER_INTERFACE ≠ msg.iface then
    { result := DBusHandlerResult.NOT_YET_HANDLED, sent := [], invoked := [],
      data := data, world := w }
  else
    let st0 : Scan ω :=
      { reply := none, err := K.BLUEZ_EDBUS_UNKNOWN_METHOD, invoked := [],
        data := data, world := w }
    let st : Scan ω :=
      if data.path_id = K.ADAPTER_ROOT_ID then
        { st0 with err := K.BLUEZ_EDBUS_UNKNOWN_PATH }
      else
        scan_handlers K msg handlers 0 st0
    let reply : Option Reply :=
      if st.err ≠ 0 then bluez_new_failure_msg msg st.err else st.reply
    { result := DBusHandlerResult.HANDLED, sent := reply.toList, invoked := st.invoked,
      data := st.data, world := st.world }

/-- A row answers a request when both its name and its signature are the request's: the
two `strcmp` tests of the scan loop. -/
def answers {ω : Type} (msg : DBusMessage) (e : service_data ω) : Prop :=
  e.name = msg.member ∧ e.signature = msg.signature

instance {ω : Type} (msg : DBusMessage) (e : service_data ω) : Decidable (answers msg e) :=
  inferInstanceAs (Decidable (e.name = msg.member ∧ e.signature = msg.signature))

/-! ## What the handlers reach outside the process -/

/-- The array `uint8_t cls[3]`: `c0` is `cls[0]` (minor class and format type), `c1` is
`cls[1]`, `c2` is `cls[2]`. -/
structure ClassOfDevice where
  c0 : Nat
  c1 : Nat
  c2 : Nat
  deriving DecidableEq

/-- The calls a handler makes to the HCI library, the attribute store and the bus.
`write_scan_enable`, `inquiry` and `inquiry_cancel` are the `hci_send_req` calls with
`ocf` `OCF_WRITE_SCAN_ENABLE`, `OCF_INQUIRY` and `OCF_INQUIRY_CANCEL`, with the command
parameters; `get_conn_info` is the `HCIGETCONNINFO` ioctl; `hci_disconnect` is always
called with the reason `HCI_OE_USER_ENDED_CONNECTION`. -/
inductive Event where
  | hci_open_dev (dev_id : Nat)
  | hci_close_dev (dd : Nat)
  | hci_read_class_of_dev (dd : Nat)
  | write_local_class (cls : ClassOfDevice)
  | hci_write_class_of_dev (dd : Nat) (dev_class : Nat)
  | signal_sent (dev_id : Nat) (name : String) (arg : String)
  | write_scan_enable (dd : Nat) (hci_mode : Nat)
  | inquiry (dd : Nat) (lap : List Nat) (length num_rsp : Nat)
  | inquiry_cancel (dd : Nat)
  | textfile_del (key : String)
  | hci_delete_stored_link_key (dd : Nat) (bdaddr : String)
  | get_conn_info (dd : Nat) (bdaddr : String)
  | hci_disconnect (dd : Nat) (handle : Nat)
  | close (dd : Nat)
  deriving DecidableEq

/-- The surroundings of a handler.

Given (how the outside answers): `open_dev` is the descriptor `hci_open_dev` returns
(`none`: a negative value); `read_class_errno` and `write_class_errno` are `errno` when
`hci_read_class_of_dev` / `hci_write_class_of_dev` return a negative value (`none`: they
succeed); `method_return_null` and `signal_null` say that `dbus_message_new_method_return` /
`dev_signal_factory` return `NULL`.

Kept: `dev_class` is the class of device the controller holds, `local_class` the class the
attribute store holds for this adapter, `log` the calls made so far, oldest first.

Given, for the scan mode, discovery and bonding handlers: `scan_enable_errno`,
`inquiry_errno`, `inquiry_cancel_errno` and `disconnect_errno` are `errno` when the
`hci_send_req` for that command, or `hci_disconnect`, returns a negative value (`none`:
it succeeds); `scan_enable_status` and `inquiry_cancel_status` are the status byte the
controller returns; `delete_key_errno` is `errno` when `hci_delete_stored_link_key` fails;
`conn_handle` is the handle the `HCIGETCONNINFO` ioctl finds for the address of the request
(`none`: the ioctl fails, there is no active connection); `strdup_null` and `malloc_null`
say that `strdup` / `malloc` return `NULL`.

Kept: `linkkeys` is the link key file of this adapter in the attribute store, one pair of
remote address and key per line. -/
structure World where
  open_dev : Option Nat
  read_class_errno : Option Nat
  write_class_errno : Option Nat
  method_return_null : Bool
  signal_null : Bool
  dev_class : ClassOfDevice
  local_class : Option ClassOfDevice
  log : List Event
  scan_enable_errno : Option Nat
  scan_enable_status : Nat
  inquiry_errno : Option Nat
  inquiry_cancel_errno : Option Nat
  inquiry_cancel_status : Nat
  disconnect_errno : Option Nat
  delete_key_errno : Option Nat
  conn_handle : Option Nat
  strdup_null : Bool
  malloc_null : Bool
  linkkeys : List (String × String)
  deriving DecidableEq

/-- Append one call to the log. -/
def World.emit (w : World) (e : Event) : World :=
  { w with log := w.log ++ [e] }

/-- Modelled from the spec: the Command Channel is an external collaborator;
`hci_write_class_of_dev(dd, dev_class, to)` of the HCI library hands the controller the low
24 bits of `dev_class`, least significant byte first, which a later
`hci_read_class_of_dev` returns in `cls[0..2]`. -/
def class_bytes (dev_class : Nat) : ClassOfDevice :=
  { c0 := dev_class &&& 0xff, c1 := (dev_class >>> 8) &&& 0xff, c2 := (dev_class >>> 16) &&& 0xff }

/-- Executions the C standard leaves undefined. -/
inductive Fault where
  | out_of_bounds (length index : Nat)
  | null_message
  deriving DecidableEq

/-- The call `dbus_message_new_method_return(msg)`: an empty method return, or `NULL`. -/
def dbus_message_new_method_return (w : World) : Option Reply :=
  if w.method_return_null then none else some (Reply.method_return [])

/-- The call `dbus_message_append_args(reply, ...)` and its iterator variants: the values
are added at the end of a method return. -/
def dbus_message_append_args : Reply → List DBusArg → Reply
  | Reply.method_return args, more => Reply.method_return (args ++ more)
  | r, _ => r

/-- Whether `strcasecmp(a, b)` is `0`: the strings are equal once every `A`..`Z` is
replaced by its lower-case letter. -/
def strcasecmp_eq (a b : String) : Bool :=
  a.data.map Char.toLower == b.data.map Char.toLower

/-! ## Tables -/

/-- The table `service_cls`. -/
def service_cls : List String :=
  ["positioning", "networking", "rendering", "capturing", "object transfer", "audio",
   "telephony", "information"]

/-- The table `computer_minor_cls`. -/
def computer_minor_cls : List String :=
  ["uncategorized", "desktop", "server", "laptop", "handheld", "palm", "wearable"]

/-- Modelled from the spec: `SCAN_DISABLED` of the HCI header (not part of the sources);
"the live 2-bit hardware scan state", no bit set. -/
def SCAN_DISABLED : Nat := 0x00

/-- Modelled from the spec: `SCAN_INQUIRY` of the HCI header (not part of the sources); the
Inquiry bit, `SCAN_PAGE | SCAN_INQUIRY` being the "mode byte `0x03`". -/
def SCAN_INQUIRY : Nat := 0x01

/-- Modelled from the spec: `SCAN_PAGE` of the HCI header (not part of the sources); the
Connectable bit, `SCAN_PAGE | SCAN_INQUIRY` being the "mode byte `0x03`". -/
def SCAN_PAGE : Nat := 0x02

/-! ## Handlers -/

/-- The `switch (hci_mode)` of `handle_dev_get_mode_req`. -/
def scan_mode_of (K : dbus_h) (hci_mode : Nat) : String :=
  if hci_mode = SCAN_DISABLED then K.MODE_OFF
  else if hci_mode = SCAN_PAGE then K.MODE_CONNECTABLE
  else if hci_mode = (SCAN_PAGE ||| SCAN_INQUIRY) then K.MODE_DISCOVERABLE
  else K.MODE_UNKNOWN

/-- The function `handle_dev_get_mode_req`. -/
def handle_dev_get_mode_req (K : dbus_h) (_msg : DBusMessage) (data : hci_dbus_data)
    (w : World) : Option Reply × hci_dbus_data × World :=
  let hci_mode := data.mode % 256
  let scan_mode := scan_mode_of K hci_mode
  match dbus_message_new_method_return w with
  | none => (some Reply.error_out_of_memory, data, w)
  | some reply => (some (dbus_message_append_args reply [DBusArg.string scan_mode]), data, w)

/-- The function `handle_dev_get_minor_class_req`. -/
def handle_dev_get_minor_class_req (_msg : DBusMessage) (data : hci_dbus_data) (w : World) :
    Except Fault (Option Reply × hci_dbus_data × World) :=
  let w := w.emit (Event.hci_open_dev data.dev_id)
  match w.open_dev with
  | none => Except.ok (some Reply.error_no_such_adapter, data, w)
  | some dd =>
    let w := w.emit (Event.hci_read_class_of_dev dd)
    match w.read_class_errno with
    | some errno =>
      Except.ok (some (Reply.error_failed (-(errno : Int))), data, w.emit (Event.hci_close_dev dd))
    | none =>
      let cls := w.dev_class
      let w := w.emit (Event.hci_close_dev dd)
      match dbus_message_new_method_return w with
      | none => Except.ok (some Reply.error_out_of_memory, data, w)
      | some reply =>
        let failed := dbus_message_append_args reply [DBusArg.string ""]
        if (cls.c1 &&& 0x1f) ≠ 1 then
          Except.ok (some failed, data, w)
        else
          let minor_class := (cls.c0 >>> 2) % 256
          if minor_class > computer_minor_cls.length then
            Except.ok (some failed, data, w)
          else
            match computer_minor_cls[minor_class]? with
            | none => Except.error (Fault.out_of_bounds computer_minor_cls.length minor_class)
            | some str_ptr =>
              Except.ok (some (dbus_message_append_args reply [DBusArg.string str_ptr]), data, w)

/-- The loop of `handle_dev_set_minor_class_req` over `computer_minor_cls`; `i` is the
position of the head of the list and `dev_class` the value before the loop. -/
def minor_class_scan (minor : String) : List String → Nat → Nat → Nat
  | [], _, dev_class => dev_class
  | c :: cs, i, dev_class =>
    if strcasecmp_eq minor c then (i <<< 2) % 4294967296
    else minor_class_scan minor cs (i + 1) dev_class

/-- The function `handle_dev_set_minor_class_req`; `minor` is the pointer that
`dbus_message_iter_get_basic` stores (`none`: `NULL`). -/
def handle_dev_set_minor_class_req (K : dbus_h) (msg : DBusMessage) (minor : Option String)
    (data : hci_dbus_data) (w : World) : Option Reply × hci_dbus_data × World :=
  match minor with
  | none => (bluez_new_failure_msg msg K.BLUEZ_EDBUS_WRONG_PARAM, data, w)
  | some minor =>
    let dev_class := minor_class_scan minor computer_minor_cls 0 0xFFFFFFFF
    if dev_class = 0xFFFFFFFF then
      (bluez_new_failure_msg msg K.BLUEZ_EDBUS_WRONG_PARAM, data, w)
    else
      let w := w.emit (Event.hci_open_dev data.dev_id)
      match w.open_dev with
      | none => (some Reply.error_no_such_adapter, data, w)
      | some dd =>
        let w := w.emit (Event.hci_read_class_of_dev dd)
        match w.read_class_errno with
        | some errno =>
          (bluez_new_failure_msg msg (K.BLUEZ_ESYSTEM_OFFSET ||| errno), data,
            w.emit (Event.hci_close_dev dd))
        | none =>
          let cls := w.dev_class
          let dev_class := (dev_class ||| ((cls.c2 <<< 16) ||| (cls.c1 <<< 8))) % 4294967296
          let cls : ClassOfDevice := { c0 := dev_class &&& 0xff, c1 := 0x01, c2 := 0x00 }
          let w := { w.emit (Event.write_local_class cls) with local_class := some cls }
          let w := w.emit (Event.hci_write_class_of_dev dd dev_class)
          match w.write_class_errno with
          | some errno =>
            (bluez_new_failure_msg msg (K.BLUEZ_ESYSTEM_OFFSET ||| errno), data,
              w.emit (Event.hci_close_dev dd))
          | none =>
            let w := { w with dev_class := class_bytes dev_class }
            let w :=
              if w.signal_null then w
              else w.emit (Event.signal_sent data.dev_id K.DEV_SIG_MINOR_CLASS_CHANGED minor)
            let reply := dbus_message_new_method_return w
            (reply, data, w.emit (Event.hci_close_dev dd))

/-- The loop of `handle_dev_get_service_classes_req` over `service_cls`: the strings
appended to the array, `i` being the position of the head of the list. -/
def service_classes_loop (c2 : Nat) : List String → Nat → List String
  | [], _ => []
  | s :: ss, i =>
    if c2 &&& (1 <<< i) ≠ 0 then s :: service_classes_loop c2 ss (i + 1)
    else service_classes_loop c2 ss (i + 1)

/-- The function `handle_dev_get_service_classes_req`. -/
def handle_dev_get_service_classes_req (K : dbus_h) (msg : DBusMessage) (data : hci_dbus_data)
    (w : World) : Except Fault (Option Reply × hci_dbus_data × World) :=
  let w := w.emit (Event.hci_open_dev data.dev_id)
  match w.open_dev with
  | none => Except.ok (some Reply.error_no_such_adapter, data, w)
  | some dd =>
    let w := w.emit (Event.hci_read_class_of_dev dd)
    match w.read_class_errno with
    | some errno =>
      Except.ok (bluez_new_failure_msg msg (K.BLUEZ_ESYSTEM_OFFSET ||| errno), data,
        w.emit (Event.hci_close_dev dd))
    | none =>
      let cls := w.dev_class
      match dbus_message_new_method_return w with
      | none => Except.error Fault.null_message
      | some reply =>
        let labels := service_classes_loop cls.c2 service_cls 0
        Except.ok (some (dbus_message_append_args reply [DBusArg.array_string labels]), data,
          w.emit (Event.hci_close_dev dd))

/-- The chain of `strcasecmp` tests of `handle_dev_set_mode_req`: the value `hci_mode`
gets, `none` when no test succeeds. -/
def scan_mode_value (K : dbus_h) (scan_mode : String) : Option Nat :=
  if strcasecmp_eq K.MODE_OFF scan_mode then some SCAN_DISABLED
  else if strcasecmp_eq K.MODE_CONNECTABLE scan_mode then some SCAN_PAGE
  else if strcasecmp_eq K.MODE_DISCOVERABLE scan_mode then some (SCAN_PAGE ||| SCAN_INQUIRY)
  else none

/-- The end of `handle_dev_set_mode_req`, reached when no command was needed or the command
succeeded: `hci_close_dev(dd)`, then the method return. -/
def set_mode_return (data : hci_dbus_data) (w : World) (dd : Nat) :
    Option Reply × hci_dbus_data × World :=
  let w := w.emit (Event.hci_close_dev dd)
  match dbus_message_new_method_return w with
  | none => (some Reply.error_out_of_memory, data, w)
  | some reply => (some reply, data, w)

/-- The function `handle_dev_set_mode_req`; `scan_mode` is the pointer that
`dbus_message_get_args` stores (`none`: `NULL`). The parameter `data` is `const` in the
source: no field of it is assigned. -/
def handle_dev_set_mode_req (K : dbus_h) (msg : DBusMessage) (scan_mode : Option String)
    (data : hci_dbus_data) (w : World) : Option Reply × hci_dbus_data × World :=
  let current_mode := data.mode % 256
  match scan_mode with
  | none => (bluez_new_failure_msg msg K.BLUEZ_EDBUS_WRONG_PARAM, data, w)
  | some scan_mode =>
    match scan_mode_value K scan_mode with
    | none => (bluez_new_failure_msg msg K.BLUEZ_EDBUS_WRONG_PARAM, data, w)
    | some hci_mode =>
      let w := w.emit (Event.hci_open_dev data.dev_id)
      match w.open_dev with
      | none => (some Reply.error_no_such_adapter, data, w)
      | some dd =>
        if current_mode ≠ hci_mode then
          let w := w.emit (Event.write_scan_enable dd hci_mode)
          match w.scan_enable_errno with
          | some errno =>
            (bluez_new_failure_msg msg (K.BLUEZ_ESYSTEM_OFFSET ||| errno), data,
              w.emit (Event.hci_close_dev dd))
          | none =>
            let status := w.scan_enable_status % 256
            if status ≠ 0 then
              (bluez_new_failure_msg msg (K.BLUEZ_EBT_OFFSET ||| status), data,
                w.emit (Event.hci_close_dev dd))
            else
              set_mode_return data w dd
        else
          set_mode_return data w dd

/-- The call `strdup(s)`: a copy of the string, or `NULL`. -/
def strdup (w : World) (s : String) : Option String :=
  if w.strdup_null then none else some s

/-- The function `handle_dev_discover_devices_req`. The inquiry parameters are those of the
source: `lap = 0x9e8b33` stored least significant byte first, `length = 8`,
`num_rsp = 0`. -/
def handle_dev_discover_devices_req (K : dbus_h) (msg : DBusMessage) (data : hci_dbus_data)
    (w : World) : Option Reply × hci_dbus_data × World :=
  let length := 8
  let num_rsp := 0
  let lap := 0x9e8b33
  match data.requestor_name with
  | some _ => (some Reply.error_discover_in_progress, data, w)
  | none =>
    let w := w.emit (Event.hci_open_dev data.dev_id)
    match w.open_dev with
    | none => (some Reply.error_no_such_adapter, data, w)
    | some dd =>
      let cp_lap := [lap &&& 0xff, (lap >>> 8) &&& 0xff, (lap >>> 16) &&& 0xff]
      let w := w.emit (Event.inquiry dd cp_lap length num_rsp)
      match w.inquiry_errno with
      | some errno =>
        (bluez_new_failure_msg msg (K.BLUEZ_ESYSTEM_OFFSET ||| errno), data,
          w.emit (Event.hci_close_dev dd))
      | none =>
        let requestor_name := msg.sender
        let data := { data with requestor_name := strdup w requestor_name }
        let reply := dbus_message_new_method_return w
        (reply, data, w.emit (Event.hci_close_dev dd))

/-- The function `handle_dev_cancel_discovery_req`. -/
def handle_dev_cancel_discovery_req (K : dbus_h) (msg : DBusMessage) (data : hci_dbus_data)
    (w : World) : Option Reply × hci_dbus_data × World :=
  let requestor_name := msg.sender
  match data.requestor_name with
  | none => (some Reply.error_not_authorized, data, w)
  | some owner =>
    if owner ≠ requestor_name then
      (some Reply.error_not_authorized, data, w)
    else
      let w := w.emit (Event.hci_open_dev data.dev_id)
      match w.open_dev with
      | none => (some Reply.error_no_such_adapter, data, w)
      | some dd =>
        let w := w.emit (Event.inquiry_cancel dd)
        match w.inquiry_cancel_errno with
        | some errno =>
          (bluez_new_failure_msg msg (K.BLUEZ_ESYSTEM_OFFSET ||| errno), data,
            w.emit (Event.hci_close_dev dd))
        | none =>
          let status := w.inquiry_cancel_status % 256
          if status ≠ 0 then
            (bluez_new_failure_msg msg (K.BLUEZ_EBT_OFFSET ||| status), data,
              w.emit (Event.hci_close_dev dd))
          else
            let data := { data with requestor_name := none }
            let reply := dbus_message_new_method_return w
            (reply, data, w.emit (Event.hci_close_dev dd))

/-- Modelled from the spec: `textfile_del(filename, key)` of `textfile.c` (not part of the
sources), the Attribute Store call "`delete(scopeKey, entryKey)`": the line of `key` is
removed from the file, which is left as it is when it has no such line. -/
def textfile_del (file : List (String × String)) (key : String) : List (String × String) :=
  file.filter (fun line => line.1 ≠ key)

/-- The function `handle_dev_remove_bonding_req`; `addr_ptr` is the remote address the
message carries. The results of `textfile_del` and of `hci_delete_stored_link_key` are not
looked at, as in the source. -/
def handle_dev_remove_bonding_req (K : dbus_h) (msg : DBusMessage) (addr_ptr : String)
    (data : hci_dbus_data) (w : World) : Option Reply × hci_dbus_data × World :=
  let w := w.emit (Event.hci_open_dev data.dev_id)
  match w.open_dev with
  | none => (some Reply.error_no_such_adapter, data, w)
  | some dd =>
    let w := { w.emit (Event.textfile_del addr_ptr) with
               linkkeys := textfile_del w.linkkeys addr_ptr }
    let w := w.emit (Event.hci_delete_stored_link_key dd addr_ptr)
    if w.malloc_null then
      (bluez_new_failure_msg msg K.BLUEZ_EDBUS_NO_MEM, data, w.emit (Event.hci_close_dev dd))
    else
      let w := w.emit (Event.get_conn_info dd addr_ptr)
      match w.conn_handle with
      | none =>
        let reply := dbus_message_new_method_return w
        (reply, data, w.emit (Event.close dd))
      | some handle =>
        let w := w.emit (Event.hci_disconnect dd handle)
        match w.disconnect_errno with
        | some errno =>
          (bluez_new_failure_msg msg (K.BLUEZ_ESYSTEM_OFFSET ||| errno), data,
            w.emit (Event.close dd))
        | none =>
          let w :=
            if w.signal_null then w
            else w.emit (Event.signal_sent data.dev_id K.DEV_SIG_BONDING_REMOVED addr_ptr)
          let reply := dbus_message_new_method_return w
          (reply, data, w.emit (Event.close dd))

/-- The `write_scan_enable` commands of a log, oldest first. -/
def scan_enable_writes : List Event → List Event
  | [] => []
  | Event.write_scan_enable dd hci_mode :: es =>
    Event.write_scan_enable dd hci_mode :: scan_enable_writes es
  | _ :: es => scan_enable_writes es

/-- The world `handle_dev_set_minor_class_req` leaves when every call succeeds: `a` is the
value the table scan found, `dd` the descriptor, `minor` the label. -/
def set_minor_class_world (K : dbus_h) (minor : String) (data : hci_dbus_data) (w : World)
    (dd a : Nat) : World :=
  { w with
    dev_class :=
      class_bytes ((a ||| ((w.dev_class.c2 <<< 16) ||| (w.dev_class.c1 <<< 8))) % 4294967296)
    local_class :=
      some { c0 := ((a ||| ((w.dev_class.c2 <<< 16) ||| (w.dev_class.c1 <<< 8)))
                      % 4294967296) &&& 0xff,
             c1 := 0x01, c2 := 0x00 }
    log := w.log ++
      [Event.hci_open_dev data.dev_id, Event.hci_read_class_of_dev dd,
       Event.write_local_class
         { c0 := ((a ||| ((w.dev_class.c2 <<< 16) ||| (w.dev_class.c1 <<< 8)))
                    % 4294967296) &&& 0xff,
           c1 := 0x01, c2 := 0x00 },
       Event.hci_write_class_of_dev dd
         ((a ||| ((w.dev_class.c2 <<< 16) ||| (w.dev_class.c1 <<< 8))) % 4294967296)] ++
      (if w.signal_null then []
       else [Event.signal_sent data.dev_id K.DEV_SIG_MINOR_CLASS_CHANGED minor]) ++
      [Event.hci_close_dev dd] }

/-- The labels of a service-class byte in the words of the spec: "returns the subset whose
bits are set, order = table order": the entries of `service_cls` whose position is a set
bit of `c2`, in the order of the table. -/
def service_labels (c2 : Nat) : List String :=
  (service_cls.enum.filter (fun p => c2.testBit p.1)).map Prod.snd

/-! ## Concrete data for evaluating the definitions -/

/-- A header instance: distinct non-zero error codes, distinct mode strings. -/
def sample_dbus_h : dbus_h :=
  { ADAPTER_INTERFACE := "org.bluez.Adapter"
    ADAPTER_ROOT_ID := 0xFFFF
    BLUEZ_EDBUS_UNKNOWN_METHOD := 0x10001
    BLUEZ_EDBUS_WRONG_SIGNATURE := 0x10002
    BLUEZ_EDBUS_WRONG_PARAM := 0x10003
    BLUEZ_EDBUS_UNKNOWN_PATH := 0x10007
    BLUEZ_ESYSTEM_OFFSET := 0x20000
    BLUEZ_EBT_OFFSET := 0x00000
    BLUEZ_EDBUS_NO_MEM := 0x10005
    DEV_SIG_MINOR_CLASS_CHANGED := "MinorClassChanged"
    DEV_SIG_BONDING_REMOVED := "BondingRemoved"
    MODE_OFF := "off"
    MODE_CONNECTABLE := "connectable"
    MODE_DISCOVERABLE := "discoverable"
    MODE_UNKNOWN := "unknown" }

/-- A live adapter: path id 0, scan mode `SCAN_PAGE`, no discovery running. -/
def sample_data : hci_dbus_data :=
  { dev_id := 0, path_id := 0, mode := 2, discoverable_timeout := 0, requestor_name := none }

/-- A handler over a counter: replies with the string `tag` and adds `n` to the counter. -/
def sample_handler (tag : String) (n : Nat) :
    DBusMessage → hci_dbus_data → Nat → Option Reply × hci_dbus_data × Nat :=
  fun _ data w => (some (Reply.method_return [DBusArg.string tag]), data, w + n)

/-- A handler that returns `NULL`. -/
def null_handler : DBusMessage → hci_dbus_data → Nat → Option Reply × hci_dbus_data × Nat :=
  fun _ data w => (none, data, w)

/-- A table with two rows of the same name and different signatures, and a row whose
handler returns `NULL`. -/
def sample_table : List (service_data Nat) :=
  [ { name := "SetName", handler_func := sample_handler "first" 1, signature := "s" },
    { name := "SetName", handler_func := sample_handler "second" 10, signature := "u" },
    { name := "Quiet", handler_func := null_handler, signature := "" } ]

/-- A request to the adapter interface. -/
def sample_msg (member signature : String) : DBusMessage :=
  { path := "/org/bluez/Adapter/hci0", iface := "org.bluez.Adapter", member := member,
    signature := signature, sender := ":1.7" }

/-- A controller that answers every call, holding the class of device `cls`; nothing is
stored or logged yet, no remote device is connected. The descriptor `hci_open_dev` returns
is 3. -/
def sample_world (cls : ClassOfDevice) : World :=
  { open_dev := some 3, read_class_errno := none, write_class_errno := none,
    method_return_null := false, signal_null := false, dev_class := cls,
    local_class := none, log := [],
    scan_enable_errno := none, scan_enable_status := 0, inquiry_errno := none,
    inquiry_cancel_errno := none, inquiry_cancel_status := 0, disconnect_errno := none,
    delete_key_errno := none, conn_handle := none, strdup_null := false,
    malloc_null := false, linkkeys := [] }

/-! ## The scan loop -/

theorem scan_handlers_first {ω : Type} (K : dbus_h) (msg : DBusMessage) :
    ∀ (tbl : List (service_data ω)) (n k : Nat) (st : Scan ω) (h : service_data ω),
      tbl[n]? = some h → answers msg h → (∀ e ∈ tbl.take n, ¬ answers msg e) →
      scan_handlers K msg tbl k st =
        { reply := (h.handler_func msg st.data st.world).1, err := 0,
          invoked := st.invoked ++ [k + n],
          data := (h.handler_func msg st.data st.world).2.1,
          world := (h.handler_func msg st.data st.world).2.2 } := by
  intro tbl
  induction tbl with
  | nil => intro n k st h hn; simp at hn
  | cons e es ih =>
    intro n k st h hn hans hpre
    cases n with
    | zero =>
      simp at hn
      subst hn
      obtain ⟨h1, h2⟩ := hans
      simp [scan_handlers, h1, h2]
    | succ n =>
      simp only [List.getElem?_cons_succ] at hn
      have he : ¬ answers msg e := hpre e (by simp)
      have hrest : ∀ x ∈ es.take n, ¬ answers msg x := fun x hx => hpre x (by simp [hx])
      unfold scan_handlers
      by_cases hname : e.name = msg.member
      · have hsig : e.signature ≠ msg.signature := fun hs => he ⟨hname, hs⟩
        simp only [hname, ne_eq, not_true_eq_false, if_false, hsig]
        rw [ih n (k + 1) _ h hn hans hrest]
        simp [Nat.add_assoc, Nat.add_comm 1 n]
      · simp only [ne_eq, hname, not_false_eq_true, if_true]
        rw [ih n (k + 1) st h hn hans hrest]
        simp [Nat.add_assoc, Nat.add_comm 1 n]

theorem scan_handlers_none {ω : Type} (K : dbus_h) (msg : DBusMessage) :
    ∀ (tbl : List (service_data ω)) (k : Nat) (st : Scan ω),
      (∀ e ∈ tbl, ¬ answers msg e) →
      ((∃ e ∈ tbl, e.name = msg.member) →
        scan_handlers K msg tbl k st = { st with err := K.BLUEZ_EDBUS_WRONG_SIGNATURE }) ∧
      ((∀ e ∈ tbl, e.name ≠ msg.member) → scan_handlers K msg tbl k st = st) := by
  intro tbl
  induction tbl with
  | nil => intro k st _; simp [scan_handlers]
  | cons e es ih =>
    intro k st hno
    have he : ¬ answers msg e := hno e (by simp)
    have hrest : ∀ x ∈ es, ¬ answers msg x := fun x hx => hno x (by simp [hx])
    by_cases hname : e.name = msg.member
    · have hsig : e.signature ≠ msg.signature := fun hs => he ⟨hname, hs⟩
      constructor
      · intro _
        unfold scan_handlers
        simp only [hname, ne_eq, not_true_eq_false, if_false, hsig]
        by_cases hex : ∃ x ∈ es, x.name = msg.member
        · rw [(ih (k + 1) _ hrest).1 hex]
        · have hall : ∀ x ∈ es, x.name ≠ msg.member := fun x hx hn => hex ⟨x, hx, hn⟩
          rw [(ih (k + 1) _ hrest).2 hall]
      · intro hall
        exact absurd hname (hall e (by simp))
    · constructor
      · intro hex
        have hex2 : ∃ x ∈ es, x.name = msg.member := by
          obtain ⟨x, hx, hn⟩ := hex
          rcases List.mem_cons.mp hx with rfl | hx
          · exact absurd hn hname
          · exact ⟨x, hx, hn⟩
        unfold scan_handlers
        simp only [ne_eq, hname, not_false_eq_true, if_true]
        exact (ih (k + 1) st hrest).1 hex2
      · intro hall
        have hall2 : ∀ x ∈ es, x.name ≠ msg.member := fun x hx => hall x (by simp [hx])
        unfold scan_handlers
        simp only [ne_eq, hname, not_false_eq_true, if_true]
        exact (ih (k + 1) st hrest).2 hall2

/-- A list either has no element with property `p`, or has a first one. -/
theorem first_position_cases {α : Type} (p : α → Prop) :
    ∀ l : List α,
      (∀ e ∈ l, ¬ p e) ∨ ∃ n x, l[n]? = some x ∧ p x ∧ ∀ e ∈ l.take n, ¬ p e := by
  intro l
  induction l with
  | nil => left; simp
  | cons e es ih =>
    by_cases he : p e
    · right; exact ⟨0, e, by simp, he, by simp⟩
    · rcases ih with hno | ⟨n, h, hn, hans, hpre⟩
      · left
        intro x hx
        rcases List.mem_cons.mp hx with rfl | hx
        · exact he
        · exact hno x hx
      · right
        refine ⟨n + 1, h, by simpa using hn, hans, ?_⟩
        intro x hx
        simp only [List.take_succ_cons, List.mem_cons] at hx
        rcases hx with rfl | hx
        · exact he
        · exact hpre x hx

/-! ## The dispatcher -/

/-- C1: a request to the adapter interface on a live adapter path, for which row `n` is the
first row of the table having both the request's method name and its signature, makes
`msg_func_device` call the handler of row `n` and no other, and hand to
`dbus_connection_send` exactly the reply that handler returned (nothing when it returned
`NULL`); rows before `n` with the same name and another signature do not change this. -/
theorem msg_func_device_first_match {ω : Type} (K : dbus_h) (tbl : List (service_data ω))
    (msg : DBusMessage) (data : hci_dbus_data) (w : ω) (n : Nat) (h : service_data ω)
    (hiface : K.ADAPTER_INTERFACE = msg.iface) (hpath : data.path_id ≠ K.ADAPTER_ROOT_ID)
    (hn : tbl[n]? = some h) (hname : h.name = msg.member)
    (hsig : h.signature = msg.signature)
    (hfirst : ∀ e ∈ tbl.take n, ¬ (e.name = msg.member ∧ e.signature = msg.signature)) :
    msg_func_device K tbl msg data w =
      { result := DBusHandlerResult.HANDLED
        sent := (h.handler_func msg data w).1.toList
        invoked := [n]
        data := (h.handler_func msg data w).2.1
        world := (h.handler_func msg data w).2.2 } := by
  unfold msg_func_device
  simp only [ne_eq, hiface, not_true_eq_false, if_false, hpath]
  rw [scan_handlers_first K msg tbl n 0 _ h hn ⟨hname, hsig⟩ hfirst]
  simp

/-- C1, evaluated: of two rows named `SetName`, a request with signature `u` reaches the
second one although the first is scanned first. -/
theorem msg_func_device_first_match_witness :
    msg_func_device sample_dbus_h sample_table (sample_msg "SetName" "u") sample_data 5 =
      { result := DBusHandlerResult.HANDLED
        sent := [Reply.method_return [DBusArg.string "second"]]
        invoked := [1]
        data := sample_data
        world := 15 } :=
  msg_func_device_first_match sample_dbus_h sample_table (sample_msg "SetName" "u")
    sample_data 5 1 { name := "SetName", handler_func := sample_handler "second" 10,
                      signature := "u" }
    (by decide) (by decide) (by rfl) (by decide) (by decide)
    (by simp [sample_table, sample_msg])

/-- C2: a request to the adapter interface on a live adapter path that no row of the table
answers (no row has both its name and its signature) calls no handler and is answered by
one failure message: `BLUEZ_EDBUS_WRONG_SIGNATURE` when some row has the request's name,
`BLUEZ_EDBUS_UNKNOWN_METHOD` when none has. The two codes are non-zero. -/
theorem msg_func_device_no_match {ω : Type} (K : dbus_h) (tbl : List (service_data ω))
    (msg : DBusMessage) (data : hci_dbus_data) (w : ω)
    (hiface : K.ADAPTER_INTERFACE = msg.iface) (hpath : data.path_id ≠ K.ADAPTER_ROOT_ID)
    (hmethod : K.BLUEZ_EDBUS_UNKNOWN_METHOD ≠ 0) (hwrong : K.BLUEZ_EDBUS_WRONG_SIGNATURE ≠ 0)
    (hno : ∀ e ∈ tbl, ¬ (e.name = msg.member ∧ e.signature = msg.signature)) :
    ((∃ e ∈ tbl, e.name = msg.member) →
      msg_func_device K tbl msg data w =
        { result := DBusHandlerResult.HANDLED
          sent := [Reply.failure K.BLUEZ_EDBUS_WRONG_SIGNATURE]
          invoked := [], data := data, world := w }) ∧
    ((∀ e ∈ tbl, e.name ≠ msg.member) →
      msg_func_device K tbl msg data w =
        { result := DBusHandlerResult.HANDLED
          sent := [Reply.failure K.BLUEZ_EDBUS_UNKNOWN_METHOD]
          invoked := [], data := data, world := w }) := by
  constructor
  · intro hex
    unfold msg_func_device
    simp only [ne_eq, hiface, not_true_eq_false, if_false, hpath]
    rw [(scan_handlers_none K msg tbl 0 _ hno).1 hex]
    simp [hwrong, bluez_new_failure_msg]
  · intro hall
    unfold msg_func_device
    simp only [ne_eq, hiface, not_true_eq_false, if_false, hpath]
    rw [(scan_handlers_none K msg tbl 0 _ hno).2 hall]
    simp [hmethod, bluez_new_failure_msg]

/-- C2, evaluated: `SetName` with signature `b` matches the name of two rows and the
signature of none; `Missing` matches no name. -/
theorem msg_func_device_no_match_witness :
    msg_func_device sample_dbus_h sample_table (sample_msg "SetName" "b") sample_data 5 =
      { result := DBusHandlerResult.HANDLED
        sent := [Reply.failure 0x10002], invoked := [], data := sample_data, world := 5 } :=
  (msg_func_device_no_match sample_dbus_h sample_table (sample_msg "SetName" "b")
    sample_data 5 (by decide) (by decide) (by decide) (by decide)
    (by simp [sample_table, sample_msg])).1
    ⟨{ name := "SetName", handler_func := sample_handler "first" 1, signature := "s" },
      by simp [sample_table], by decide⟩

/-- C3: a request to the adapter interface whose path resolves to no live adapter
(`path_id == ADAPTER_ROOT_ID`) is answered by the `BLUEZ_EDBUS_UNKNOWN_PATH` failure (a
non-zero code) and calls no handler, whatever the table, the method name and the
signature. -/
theorem msg_func_device_unknown_path {ω : Type} (K : dbus_h) (tbl : List (service_data ω))
    (msg : DBusMessage) (data : hci_dbus_data) (w : ω)
    (hiface : K.ADAPTER_INTERFACE = msg.iface) (hpath : data.path_id = K.ADAPTER_ROOT_ID)
    (hcode : K.BLUEZ_EDBUS_UNKNOWN_PATH ≠ 0) :
    msg_func_device K tbl msg data w =
      { result := DBusHandlerResult.HANDLED
        sent := [Reply.failure K.BLUEZ_EDBUS_UNKNOWN_PATH]
        invoked := [], data := data, world := w } := by
  unfold msg_func_device
  simp [hiface, hpath, hcode, bluez_new_failure_msg]

/-- C3, evaluated: `SetName` with signature `s` is in the table, the path is not live. -/
theorem msg_func_device_unknown_path_witness :
    msg_func_device sample_dbus_h sample_table (sample_msg "SetName" "s")
        { sample_data with path_id := 0xFFFF } 5 =
      { result := DBusHandlerResult.HANDLED
        sent := [Reply.failure 0x10007], invoked := []
        data := { sample_data with path_id := 0xFFFF }, world := 5 } :=
  msg_func_device_unknown_path sample_dbus_h sample_table (sample_msg "SetName" "s")
    { sample_data with path_id := 0xFFFF } 5 (by decide) (by decide) (by decide)

/-- C4, as stated, fails: a request for another interface gets no response at all, and a
request whose handler returns `NULL` gets none either. -/
theorem msg_func_device_no_response :
    (msg_func_device sample_dbus_h sample_table
        { sample_msg "SetName" "s" with iface := "org.bluez.Manager" } sample_data 5).sent = [] ∧
    (msg_func_device sample_dbus_h sample_table
        { sample_msg "SetName" "s" with iface := "org.bluez.Manager" } sample_data 5).result
      = DBusHandlerResult.NOT_YET_HANDLED ∧
    (msg_func_device sample_dbus_h sample_table (sample_msg "Quiet" "") sample_data 5).sent = [] ∧
    (msg_func_device sample_dbus_h sample_table (sample_msg "Quiet" "") sample_data 5).invoked
      = [2] := by
  decide

/-- C4, amended: `msg_func_device` never sends more than one message and never calls more
than one handler. A request for another interface is not handled: nothing is sent, no
handler runs. A request to the adapter interface (the three dispatcher error codes being
non-zero) is handled and gets exactly one message, except when the one handler that was called
returned `NULL`, in which case nothing is sent. -/
theorem msg_func_device_at_most_one {ω : Type} (K : dbus_h) (tbl : List (service_data ω))
    (msg : DBusMessage) (data : hci_dbus_data) (w : ω)
    (hmethod : K.BLUEZ_EDBUS_UNKNOWN_METHOD ≠ 0) (hwrong : K.BLUEZ_EDBUS_WRONG_SIGNATURE ≠ 0)
    (hcode : K.BLUEZ_EDBUS_UNKNOWN_PATH ≠ 0) :
    (msg_func_device K tbl msg data w).sent.length ≤ 1 ∧
    (msg_func_device K tbl msg data w).invoked.length ≤ 1 ∧
    (K.ADAPTER_INTERFACE ≠ msg.iface →
      msg_func_device K tbl msg data w =
        { result := DBusHandlerResult.NOT_YET_HANDLED, sent := [], invoked := [],
          data := data, world := w }) ∧
    (K.ADAPTER_INTERFACE = msg.iface →
      (msg_func_device K tbl msg data w).result = DBusHandlerResult.HANDLED ∧
      ((msg_func_device K tbl msg data w).sent.length = 1 ∨
        ∃ n h, tbl[n]? = some h ∧ (msg_func_device K tbl msg data w).invoked = [n] ∧
          (h.handler_func msg data w).1 = none ∧
          (msg_func_device K tbl msg data w).sent = [])) := by
  by_cases hiface : K.ADAPTER_INTERFACE = msg.iface
  · by_cases hpath : data.path_id = K.ADAPTER_ROOT_ID
    · unfold msg_func_device
      simp [hiface, hpath, hcode, bluez_new_failure_msg]
    · rcases first_position_cases (answers msg) tbl with hno | ⟨n, h, hn, hans, hpre⟩
      · by_cases hex : ∃ e ∈ tbl, e.name = msg.member
        · unfold msg_func_device
          simp only [ne_eq, hiface, not_true_eq_false, if_false, hpath]
          rw [(scan_handlers_none K msg tbl 0 _ hno).1 hex]
          simp [hwrong, bluez_new_failure_msg]
        · have hall : ∀ e ∈ tbl, e.name ≠ msg.member := fun e he hn => hex ⟨e, he, hn⟩
          unfold msg_func_device
          simp only [ne_eq, hiface, not_true_eq_false, if_false, hpath]
          rw [(scan_handlers_none K msg tbl 0 _ hno).2 hall]
          simp [hmethod, bluez_new_failure_msg]
      · have hrun : msg_func_device K tbl msg data w =
            { result := DBusHandlerResult.HANDLED
              sent := (h.handler_func msg data w).1.toList
              invoked := [n]
              data := (h.handler_func msg data w).2.1
              world := (h.handler_func msg data w).2.2 } := by
          unfold msg_func_device
          simp only [ne_eq, hiface, not_true_eq_false, if_false, hpath]
          rw [scan_handlers_first K msg tbl n 0 _ h hn hans hpre]
          simp
        rw [hrun]
        refine ⟨?_, by simp, fun hne => absurd hiface hne, fun _ => ⟨rfl, ?_⟩⟩
        · cases (h.handler_func msg data w).1 <;> simp
        · cases hr : (h.handler_func msg data w).1 with
          | none => right; exact ⟨n, h, hn, rfl, hr, by simp⟩
          | some r => left; simp
  · have hr : msg_func_device K tbl msg data w =
        { result := DBusHandlerResult.NOT_YET_HANDLED, sent := [], invoked := [],
          data := data, world := w } := by
      unfold msg_func_device
      simp [hiface]
    rw [hr]
    simp [hiface]

/-- C4 amended, evaluated on the request `SetName` with signature `s`. -/
theorem msg_func_device_at_most_one_witness :
    (msg_func_device sample_dbus_h sample_table (sample_msg "SetName" "s")
      sample_data 5).sent.length ≤ 1 :=
  (msg_func_device_at_most_one sample_dbus_h sample_table (sample_msg "SetName" "s")
    sample_data 5 (by decide) (by decide) (by decide)).1

/-! ## Class of device: bytes and bits -/

theorem testBit_of_lt_256 (a i : Nat) (ha : a < 256) (hi : 8 ≤ i) : a.testBit i = false :=
  Nat.testBit_lt_two_pow (lt_of_lt_of_le ha (by
    calc 256 = 2 ^ 8 := by norm_num
      _ ≤ 2 ^ i := Nat.pow_le_pow_right (by norm_num) hi))

/-- The low byte of the merged class value is the minor-class byte. -/
theorem merged_low_byte (a c1 c2 : Nat) (ha : a < 256) :
    ((a ||| ((c2 <<< 16) ||| (c1 <<< 8))) % 4294967296) &&& 0xff = a := by
  apply Nat.eq_of_testBit_eq
  intro i
  have h255 : (255 : Nat) = 2 ^ 8 - 1 := by norm_num
  have h32 : (4294967296 : Nat) = 2 ^ 32 := by norm_num
  rw [h255, h32]
  simp only [Nat.testBit_and, Nat.testBit_two_pow_sub_one, Nat.testBit_mod_two_pow,
    Nat.testBit_or, Nat.testBit_shiftLeft]
  by_cases hi : i < 8
  · have h1 : ¬ (16 ≤ i) := by omega
    have h2 : ¬ (8 ≤ i) := by omega
    have h3 : i < 32 := by omega
    simp [hi, h1, h2, h3]
  · simp [hi, testBit_of_lt_256 a i ha (by omega)]

/-- The middle byte of the merged class value keeps the five major-class bits of `c1`. -/
theorem merged_major_bits (a c1 c2 : Nat) (ha : a < 256) :
    ((((a ||| ((c2 <<< 16) ||| (c1 <<< 8))) % 4294967296) >>> 8) &&& 0xff) &&& 0x1f
      = c1 &&& 0x1f := by
  apply Nat.eq_of_testBit_eq
  intro i
  have h255 : (255 : Nat) = 2 ^ 8 - 1 := by norm_num
  have h31 : (31 : Nat) = 2 ^ 5 - 1 := by norm_num
  have h32 : (4294967296 : Nat) = 2 ^ 32 := by norm_num
  rw [h255, h31, h32]
  simp only [Nat.testBit_and, Nat.testBit_two_pow_sub_one, Nat.testBit_mod_two_pow,
    Nat.testBit_or, Nat.testBit_shiftLeft, Nat.testBit_shiftRight]
  by_cases hi : i < 5
  · have h1 : ¬ (16 ≤ 8 + i) := by omega
    have h2 : 8 ≤ 8 + i := by omega
    have h3 : 8 + i < 32 := by omega
    have h4 : i < 8 := by omega
    simp [hi, h1, h2, h3, h4, testBit_of_lt_256 a (8 + i) ha (by omega)]
  · simp [hi]

/-- The high byte of the merged class value is the service-class byte `c2`. -/
theorem merged_high_byte (a c1 c2 : Nat) (ha : a < 256) (h1 : c1 < 256) (h2 : c2 < 256) :
    (((a ||| ((c2 <<< 16) ||| (c1 <<< 8))) % 4294967296) >>> 16) &&& 0xff = c2 := by
  apply Nat.eq_of_testBit_eq
  intro i
  have h255 : (255 : Nat) = 2 ^ 8 - 1 := by norm_num
  have h32 : (4294967296 : Nat) = 2 ^ 32 := by norm_num
  rw [h255, h32]
  simp only [Nat.testBit_and, Nat.testBit_two_pow_sub_one, Nat.testBit_mod_two_pow,
    Nat.testBit_or, Nat.testBit_shiftLeft, Nat.testBit_shiftRight]
  by_cases hi : i < 8
  · have e1 : 16 + i - 16 = i := by omega
    have e2 : 16 + i < 32 := by omega
    simp [hi, e1, e2, testBit_of_lt_256 a (16 + i) ha (by omega),
      testBit_of_lt_256 c1 (16 + i - 8) h1 (by omega)]
  · simp [hi, testBit_of_lt_256 c2 i h2 (by omega)]

/-! ## The minor class handlers -/

theorem set_minor_class_success (K : dbus_h) (msg : DBusMessage) (minor : String)
    (data : hci_dbus_data) (w : World) (dd : Nat)
    (hvalid : minor_class_scan minor computer_minor_cls 0 0xFFFFFFFF ≠ 0xFFFFFFFF)
    (hopen : w.open_dev = some dd) (hread : w.read_class_errno = none)
    (hwrite : w.write_class_errno = none) :
    handle_dev_set_minor_class_req K msg (some minor) data w =
      (dbus_message_new_method_return w, data,
        set_minor_class_world K minor data w dd
          (minor_class_scan minor computer_minor_cls 0 0xFFFFFFFF)) := by
  unfold handle_dev_set_minor_class_req
  simp only [hvalid, if_false, World.emit, hopen, hread, hwrite]
  by_cases hs : w.signal_null = true
  · simp [hs, set_minor_class_world, dbus_message_new_method_return, hopen, hread, hwrite]
  · simp [hs, set_minor_class_world, dbus_message_new_method_return, hopen, hread, hwrite]

theorem get_minor_class_computer (msg : DBusMessage) (data : hci_dbus_data) (w : World)
    (dd : Nat) (label : String)
    (hopen : w.open_dev = some dd) (hread : w.read_class_errno = none)
    (halloc : w.method_return_null = false)
    (hmajor : w.dev_class.c1 &&& 0x1f = 1)
    (hlabel : computer_minor_cls[(w.dev_class.c0 >>> 2) % 256]? = some label) :
    handle_dev_get_minor_class_req msg data w =
      Except.ok (some (Reply.method_return [DBusArg.string label]), data,
        { w with log := w.log ++ [Event.hci_open_dev data.dev_id,
            Event.hci_read_class_of_dev dd, Event.hci_close_dev dd] }) := by
  have hlt : (w.dev_class.c0 >>> 2) % 256 < computer_minor_cls.length := by
    rcases List.getElem?_eq_some_iff.mp hlabel with ⟨h, _⟩
    exact h
  have hle : ¬ ((w.dev_class.c0 >>> 2) % 256 > computer_minor_cls.length) := by omega
  unfold handle_dev_get_minor_class_req
  simp only [World.emit, hopen, hread, dbus_message_new_method_return, halloc, hmajor]
  simp [hle, hlabel, dbus_message_append_args]

theorem minor_class_scan_none (minor : String) :
    ∀ (tbl : List String) (i d : Nat),
      (∀ c ∈ tbl, ¬ strcasecmp_eq minor c = true) → minor_class_scan minor tbl i d = d := by
  intro tbl
  induction tbl with
  | nil => intro i d _; rfl
  | cons c cs ih =>
    intro i d hno
    have hc : ¬ strcasecmp_eq minor c = true := hno c (by simp)
    unfold minor_class_scan
    simp only [hc, if_false]
    exact ih (i + 1) d (fun x hx => hno x (by simp [hx]))

theorem minor_class_scan_first (minor : String) :
    ∀ (tbl : List String) (n i d : Nat) (c : String),
      tbl[n]? = some c → strcasecmp_eq minor c = true →
      (∀ x ∈ tbl.take n, ¬ strcasecmp_eq minor x = true) →
      minor_class_scan minor tbl i d = ((i + n) <<< 2) % 4294967296 := by
  intro tbl
  induction tbl with
  | nil => intro n i d c hn; simp at hn
  | cons e es ih =>
    intro n i d c hn hc hpre
    cases n with
    | zero =>
      simp at hn
      subst hn
      simp [minor_class_scan, hc]
    | succ n =>
      simp only [List.getElem?_cons_succ] at hn
      have he : ¬ strcasecmp_eq minor e = true := hpre e (by simp)
      unfold minor_class_scan
      simp only [he, if_false]
      rw [ih n (i + 1) d c hn hc (fun x hx => hpre x (by simp [hx]))]
      simp [Nat.add_assoc, Nat.add_comm 1 n]

/-- No two entries of `computer_minor_cls` are equal ignoring letter case. -/
theorem computer_minor_cls_distinct :
    computer_minor_cls.Pairwise (fun x c => strcasecmp_eq x c = false) := by
  decide

/-- A label that equals entry `n` of `computer_minor_cls` ignoring letter case equals no
earlier entry. -/
theorem computer_minor_cls_first (minor c : String) (n : Nat)
    (hn : computer_minor_cls[n]? = some c) (hc : strcasecmp_eq minor c = true) :
    ∀ x ∈ computer_minor_cls.take n, ¬ strcasecmp_eq minor x = true := by
  intro x hx hxm
  have hsplit : computer_minor_cls = computer_minor_cls.take n ++ computer_minor_cls.drop n :=
    (List.take_append_drop n computer_minor_cls).symm
  have hmem : c ∈ computer_minor_cls.drop n := by
    rcases List.getElem?_eq_some_iff.mp hn with ⟨hlt, hget⟩
    rw [List.drop_eq_getElem_cons hlt, hget]
    simp
  have hpw := computer_minor_cls_distinct
  rw [hsplit, List.pairwise_append] at hpw
  have hxc : strcasecmp_eq x c = false := hpw.2.2 x hx c hmem
  have h1 : minor.data.map Char.toLower = c.data.map Char.toLower := by
    simpa [strcasecmp_eq] using hc
  have h2 : minor.data.map Char.toLower = x.data.map Char.toLower := by
    simpa [strcasecmp_eq] using hxm
  have h3 : strcasecmp_eq x c = true := by
    simp [strcasecmp_eq, ← h1, ← h2]
  rw [h3] at hxc
  exact Bool.noConfusion hxc

/-- The table scan of `handle_dev_set_minor_class_req` on a label that equals entry `n`
ignoring letter case: the minor-class byte `n << 2`. -/
theorem minor_class_scan_entry (minor c : String) (n : Nat)
    (hn : computer_minor_cls[n]? = some c) (hc : strcasecmp_eq minor c = true) :
    minor_class_scan minor computer_minor_cls 0 0xFFFFFFFF = n <<< 2 ∧ n < 7 := by
  have hlt : n < 7 := by
    rcases List.getElem?_eq_some_iff.mp hn with ⟨hlt, _⟩
    simpa [computer_minor_cls] using hlt
  rw [minor_class_scan_first minor computer_minor_cls n 0 0xFFFFFFFF c hn hc
    (computer_minor_cls_first minor c n hn hc)]
  refine ⟨?_, hlt⟩
  simp only [Nat.zero_add, Nat.shiftLeft_eq]
  omega

/-- The table scan leaves `0xFFFFFFFF` exactly when the label equals no entry ignoring
letter case. -/
theorem minor_class_scan_invalid_iff (minor : String) :
    minor_class_scan minor computer_minor_cls 0 0xFFFFFFFF = 0xFFFFFFFF ↔
      ∀ c ∈ computer_minor_cls, ¬ strcasecmp_eq minor c = true := by
  constructor
  · intro hscan
    rcases first_position_cases (fun c => strcasecmp_eq minor c = true) computer_minor_cls
      with hno | ⟨n, c, hn, hc, _⟩
    · exact hno
    · have h := minor_class_scan_entry minor c n hn hc
      rw [h.1, Nat.shiftLeft_eq] at hscan
      omega
  · intro hno
    exact minor_class_scan_none minor computer_minor_cls 0 0xFFFFFFFF hno

/-- C5, as stated, fails: the controller holds a class whose major class is not computer
(`cls[1] = 2`); setting the minor class `desktop` succeeds and writes the class bytes
`04 02 00` to the controller, and decoding them returns the empty string, not `desktop`. -/
theorem minor_class_round_trip_fails :
    (handle_dev_set_minor_class_req sample_dbus_h (sample_msg "SetMinorClass" "s")
        (some "desktop") sample_data (sample_world { c0 := 0, c1 := 2, c2 := 0 })).1
      = some (Reply.method_return []) ∧
    (handle_dev_set_minor_class_req sample_dbus_h (sample_msg "SetMinorClass" "s")
        (some "desktop") sample_data (sample_world { c0 := 0, c1 := 2, c2 := 0 })).2.2.dev_class
      = { c0 := 4, c1 := 2, c2 := 0 } ∧
    Except.map (fun r => r.1)
      (handle_dev_get_minor_class_req (sample_msg "GetMinorClass" "") sample_data
        (handle_dev_set_minor_class_req sample_dbus_h (sample_msg "SetMinorClass" "s")
          (some "desktop") sample_data (sample_world { c0 := 0, c1 := 2, c2 := 0 })).2.2)
      = Except.ok (some (Reply.method_return [DBusArg.string ""])) := by
  refine ⟨by decide, by decide, by rfl⟩

/-- C5, amended: for every label `L` of `computer_minor_cls` and every class of device read
from the controller whose major class is computer (`cls[1] & 0x1f == 1`), when the channel
opens, the class read and the class write succeed and the reply is allocated,
`handle_dev_get_minor_class_req` run after `handle_dev_set_minor_class_req(L)` returns
`L`. -/
theorem minor_class_round_trip (K : dbus_h) (msg msg2 : DBusMessage) (data : hci_dbus_data)
    (w : World) (dd : Nat) (L : String)
    (hL : L ∈ computer_minor_cls)
    (hopen : w.open_dev = some dd) (hread : w.read_class_errno = none)
    (hwrite : w.write_class_errno = none) (halloc : w.method_return_null = false)
    (hmajor : w.dev_class.c1 &&& 0x1f = 1) :
    Except.map (fun r => r.1)
      (handle_dev_get_minor_class_req msg2 data
        (handle_dev_set_minor_class_req K msg (some L) data w).2.2)
      = Except.ok (some (Reply.method_return [DBusArg.string L])) := by
  obtain ⟨n, hlt, hget⟩ := List.getElem_of_mem hL
  have hn : computer_minor_cls[n]? = some L := List.getElem?_eq_some_iff.mpr ⟨hlt, hget⟩
  have hself : strcasecmp_eq L L = true := by simp [strcasecmp_eq]
  obtain ⟨hscan, hn7⟩ := minor_class_scan_entry L L n hn hself
  have hvalid : minor_class_scan L computer_minor_cls 0 0xFFFFFFFF ≠ 0xFFFFFFFF := by
    rw [hscan, Nat.shiftLeft_eq]; omega
  have ha : n <<< 2 < 256 := by rw [Nat.shiftLeft_eq]; omega
  rw [set_minor_class_success K msg L data w dd hvalid hopen hread hwrite, hscan]
  have hc0 : (set_minor_class_world K L data w dd (n <<< 2)).dev_class.c0 = n <<< 2 := by
    simp only [set_minor_class_world, class_bytes]
    exact merged_low_byte (n <<< 2) w.dev_class.c1 w.dev_class.c2 ha
  have hc1 : (set_minor_class_world K L data w dd (n <<< 2)).dev_class.c1 &&& 0x1f = 1 := by
    simp only [set_minor_class_world, class_bytes]
    rw [merged_major_bits (n <<< 2) w.dev_class.c1 w.dev_class.c2 ha]
    exact hmajor
  have hidx : ((set_minor_class_world K L data w dd (n <<< 2)).dev_class.c0 >>> 2) % 256
      = n := by
    rw [hc0, Nat.shiftLeft_eq, Nat.shiftRight_eq_div_pow]
    omega
  rw [get_minor_class_computer msg2 data _ dd L (by simpa [set_minor_class_world] using hopen)
    (by simpa [set_minor_class_world] using hread)
    (by simpa [set_minor_class_world] using halloc) hc1 (by rw [hidx]; exact hn)]
  rfl

/-- C5 amended, evaluated: `laptop` on a controller holding `00 01 05`. -/
theorem minor_class_round_trip_witness :
    Except.map (fun r => r.1)
      (handle_dev_get_minor_class_req (sample_msg "GetMinorClass" "") sample_data
        (handle_dev_set_minor_class_req sample_dbus_h (sample_msg "SetMinorClass" "s")
          (some "laptop") sample_data (sample_world { c0 := 0, c1 := 1, c2 := 5 })).2.2)
      = Except.ok (some (Reply.method_return [DBusArg.string "laptop"])) :=
  minor_class_round_trip sample_dbus_h (sample_msg "SetMinorClass" "s")
    (sample_msg "GetMinorClass" "") sample_data (sample_world { c0 := 0, c1 := 1, c2 := 5 })
    3 "laptop" (by decide) (by rfl) (by rfl) (by rfl) (by rfl) (by decide)

theorem set_minor_class_write_fails (K : dbus_h) (msg : DBusMessage) (minor : String)
    (data : hci_dbus_data) (w : World) (dd errno : Nat)
    (hvalid : minor_class_scan minor computer_minor_cls 0 0xFFFFFFFF ≠ 0xFFFFFFFF)
    (hopen : w.open_dev = some dd) (hread : w.read_class_errno = none)
    (hwrite : w.write_class_errno = some errno) :
    handle_dev_set_minor_class_req K msg (some minor) data w =
      (some (Reply.failure (K.BLUEZ_ESYSTEM_OFFSET ||| errno)), data,
        { w with
          local_class :=
            some { c0 := ((minor_class_scan minor computer_minor_cls 0 0xFFFFFFFF |||
                            ((w.dev_class.c2 <<< 16) ||| (w.dev_class.c1 <<< 8)))
                            % 4294967296) &&& 0xff,
                   c1 := 0x01, c2 := 0x00 }
          log := w.log ++
            [Event.hci_open_dev data.dev_id, Event.hci_read_class_of_dev dd,
             Event.write_local_class
               { c0 := ((minor_class_scan minor computer_minor_cls 0 0xFFFFFFFF |||
                           ((w.dev_class.c2 <<< 16) ||| (w.dev_class.c1 <<< 8)))
                           % 4294967296) &&& 0xff,
                 c1 := 0x01, c2 := 0x00 },
             Event.hci_write_class_of_dev dd
               ((minor_class_scan minor computer_minor_cls 0 0xFFFFFFFF |||
                  ((w.dev_class.c2 <<< 16) ||| (w.dev_class.c1 <<< 8))) % 4294967296),
             Event.hci_close_dev dd] }) := by
  unfold handle_dev_set_minor_class_req
  simp only [hvalid, if_false, World.emit, hopen, hread, hwrite]
  simp [bluez_new_failure_msg, hopen, hread, hwrite]

/-- What `handle_dev_set_minor_class_req` persists and hands to the controller for a label
that equals entry `n` of `computer_minor_cls` ignoring letter case, once the channel is
open and the class is read; the order of the calls is that of the log. -/
theorem set_minor_class_effects (K : dbus_h) (msg : DBusMessage) (minor c : String)
    (n : Nat) (data : hci_dbus_data) (w : World) (dd : Nat)
    (hn : computer_minor_cls[n]? = some c) (hc : strcasecmp_eq minor c = true)
    (hopen : w.open_dev = some dd) (hread : w.read_class_errno = none) :
    (handle_dev_set_minor_class_req K msg (some minor) data w).2.2.local_class
      = some { c0 := n <<< 2, c1 := 0x01, c2 := 0x00 } ∧
    (∃ rest,
      (handle_dev_set_minor_class_req K msg (some minor) data w).2.2.log
        = w.log ++
          [Event.hci_open_dev data.dev_id, Event.hci_read_class_of_dev dd,
           Event.write_local_class { c0 := n <<< 2, c1 := 0x01, c2 := 0x00 },
           Event.hci_write_class_of_dev dd
             ((n <<< 2 ||| ((w.dev_class.c2 <<< 16) ||| (w.dev_class.c1 <<< 8)))
               % 4294967296)] ++ rest) := by
  obtain ⟨hscan, hn7⟩ := minor_class_scan_entry minor c n hn hc
  have hvalid : minor_class_scan minor computer_minor_cls 0 0xFFFFFFFF ≠ 0xFFFFFFFF := by
    rw [hscan, Nat.shiftLeft_eq]; omega
  have ha : n <<< 2 < 256 := by rw [Nat.shiftLeft_eq]; omega
  have hlow := merged_low_byte (n <<< 2) w.dev_class.c1 w.dev_class.c2 ha
  constructor
  · cases hw : w.write_class_errno with
    | none =>
      rw [set_minor_class_success K msg minor data w dd hvalid hopen hread hw, hscan]
      simp only [set_minor_class_world, hlow]
    | some errno =>
      rw [set_minor_class_write_fails K msg minor data w dd errno hvalid hopen hread hw, hscan]
      simp only [hlow]
  · cases hw : w.write_class_errno with
    | none =>
      rw [set_minor_class_success K msg minor data w dd hvalid hopen hread hw, hscan]
      simp only [set_minor_class_world, hlow]
      exact ⟨_, by rw [List.append_assoc]⟩
    | some errno =>
      rw [set_minor_class_write_fails K msg minor data w dd errno hvalid hopen hread hw, hscan]
      simp only [hlow]
      exact ⟨[Event.hci_close_dev dd], by simp⟩

/-- C6, as stated, fails: with the controller holding service-class bits `0b101`
(`cls[2] = 5`), setting the minor class `server` persists the bytes `08 01 00`; the
service-class byte of the persisted class is 0. -/
theorem set_minor_class_drops_service_bits :
    (handle_dev_set_minor_class_req sample_dbus_h (sample_msg "SetMinorClass" "s")
        (some "server") sample_data (sample_world { c0 := 0, c1 := 1, c2 := 5 })).2.2.local_class
      = some { c0 := 8, c1 := 1, c2 := 0 } ∧
    (handle_dev_set_minor_class_req sample_dbus_h (sample_msg "SetMinorClass" "s")
        (some "server") sample_data (sample_world { c0 := 0, c1 := 1, c2 := 5 })).2.2.log
      = [Event.hci_open_dev 0, Event.hci_read_class_of_dev 3,
         Event.write_local_class { c0 := 8, c1 := 1, c2 := 0 },
         Event.hci_write_class_of_dev 3 0x050108,
         Event.signal_sent 0 "MinorClassChanged" "server", Event.hci_close_dev 3] := by
  refine ⟨by decide, by decide⟩

/-- C6, amended: for every label that equals entry `n` of `computer_minor_cls` ignoring
letter case and every class of device read from the controller, the class bytes
`handle_dev_set_minor_class_req` persists with `write_local_class` are `n << 2`, `0x01`,
`0x00`: minor class `n`, major class computer, no service class. The service-class byte
that was read is kept in the value handed afterwards to `hci_write_class_of_dev`. -/
theorem set_minor_class_persisted (K : dbus_h) (msg : DBusMessage) (minor c : String)
    (n : Nat) (data : hci_dbus_data) (w : World) (dd : Nat)
    (hn : computer_minor_cls[n]? = some c) (hc : strcasecmp_eq minor c = true)
    (hopen : w.open_dev = some dd) (hread : w.read_class_errno = none)
    (h1 : w.dev_class.c1 < 256) (h2 : w.dev_class.c2 < 256) :
    (handle_dev_set_minor_class_req K msg (some minor) data w).2.2.local_class
      = some { c0 := n <<< 2, c1 := 0x01, c2 := 0x00 } ∧
    (∃ rest,
      (handle_dev_set_minor_class_req K msg (some minor) data w).2.2.log
        = w.log ++
          [Event.hci_open_dev data.dev_id, Event.hci_read_class_of_dev dd,
           Event.write_local_class { c0 := n <<< 2, c1 := 0x01, c2 := 0x00 },
           Event.hci_write_class_of_dev dd
             ((n <<< 2 ||| ((w.dev_class.c2 <<< 16) ||| (w.dev_class.c1 <<< 8)))
               % 4294967296)] ++ rest) ∧
    (((n <<< 2 ||| ((w.dev_class.c2 <<< 16) ||| (w.dev_class.c1 <<< 8))) % 4294967296)
        >>> 16) &&& 0xff = w.dev_class.c2 := by
  obtain ⟨_, hn7⟩ := minor_class_scan_entry minor c n hn hc
  have ha : n <<< 2 < 256 := by rw [Nat.shiftLeft_eq]; omega
  have heff := set_minor_class_effects K msg minor c n data w dd hn hc hopen hread
  exact ⟨heff.1, heff.2, merged_high_byte (n <<< 2) w.dev_class.c1 w.dev_class.c2 ha h1 h2⟩

/-- C6 amended, evaluated: `SERVER` on a controller holding `00 01 05`. -/
theorem set_minor_class_persisted_witness :
    (handle_dev_set_minor_class_req sample_dbus_h (sample_msg "SetMinorClass" "s")
        (some "SERVER") sample_data (sample_world { c0 := 0, c1 := 1, c2 := 5 })).2.2.local_class
      = some { c0 := 2 <<< 2, c1 := 0x01, c2 := 0x00 } :=
  (set_minor_class_persisted sample_dbus_h (sample_msg "SetMinorClass" "s") "SERVER" "server"
    2 sample_data (sample_world { c0 := 0, c1 := 1, c2 := 5 }) 3
    (by decide) (by decide) (by rfl) (by rfl) (by decide) (by decide)).1

/-- C7 fails on the code: for the class bytes `1c 01 00` (major class computer, minor index
`0x1c >> 2 = 7`, the length of `computer_minor_cls`) the bound test `minor_class > 7` lets
the index through and `computer_minor_cls[7]` is read, one entry past the end of the
table. -/
theorem get_minor_class_index_seven :
    handle_dev_get_minor_class_req (sample_msg "GetMinorClass" "") sample_data
        (sample_world { c0 := 0x1c, c1 := 1, c2 := 0 })
      = Except.error (Fault.out_of_bounds 7 7) := by
  rfl

/-- For a minor index above 7 and major class computer the table is not read: the reply
carries the empty string. -/
theorem get_minor_class_beyond_table (msg : DBusMessage) (data : hci_dbus_data) (w : World)
    (dd : Nat) (hopen : w.open_dev = some dd) (hread : w.read_class_errno = none)
    (halloc : w.method_return_null = false) (hmajor : w.dev_class.c1 &&& 0x1f = 1)
    (hidx : 7 < (w.dev_class.c0 >>> 2) % 256) :
    handle_dev_get_minor_class_req msg data w =
      Except.ok (some (Reply.method_return [DBusArg.string ""]), data,
        { w with log := w.log ++ [Event.hci_open_dev data.dev_id,
            Event.hci_read_class_of_dev dd, Event.hci_close_dev dd] }) := by
  have hgt : (w.dev_class.c0 >>> 2) % 256 > computer_minor_cls.length := by
    simpa [computer_minor_cls] using hidx
  unfold handle_dev_get_minor_class_req
  simp only [World.emit, hopen, hread, dbus_message_new_method_return, halloc, hmajor]
  simp [hgt, dbus_message_append_args]

/-- C8: `handle_dev_set_minor_class_req` replies with the `BLUEZ_EDBUS_WRONG_PARAM` failure
exactly when the label equals no entry of `computer_minor_cls` ignoring letter case (no
system error code `BLUEZ_ESYSTEM_OFFSET | errno` being equal to `BLUEZ_EDBUS_WRONG_PARAM`);
it then returns at once: the world is unchanged, so no channel is opened, no class is read,
nothing is persisted or written to the controller and no signal is sent. For a label that
equals entry `n` in any letter case the table scan yields `n << 2`, format bits 0, and
that is the low byte of the value persisted and of the value handed to
`hci_write_class_of_dev`. -/
theorem set_minor_class_wrong_param (K : dbus_h) (msg : DBusMessage) (minor : String)
    (data : hci_dbus_data) (w : World)
    (hcol : ∀ errno, K.BLUEZ_ESYSTEM_OFFSET ||| errno ≠ K.BLUEZ_EDBUS_WRONG_PARAM) :
    ((handle_dev_set_minor_class_req K msg (some minor) data w).1
        = some (Reply.failure K.BLUEZ_EDBUS_WRONG_PARAM) ↔
      ∀ c ∈ computer_minor_cls, ¬ strcasecmp_eq minor c = true) ∧
    ((∀ c ∈ computer_minor_cls, ¬ strcasecmp_eq minor c = true) →
      handle_dev_set_minor_class_req K msg (some minor) data w
        = (some (Reply.failure K.BLUEZ_EDBUS_WRONG_PARAM), data, w)) ∧
    (∀ n c, computer_minor_cls[n]? = some c → strcasecmp_eq minor c = true →
      minor_class_scan minor computer_minor_cls 0 0xFFFFFFFF = n <<< 2 ∧
      (n <<< 2) &&& 3 = 0 ∧ (n <<< 2) >>> 2 = n ∧
      ∀ dd, w.open_dev = some dd → w.read_class_errno = none →
        (handle_dev_set_minor_class_req K msg (some minor) data w).2.2.local_class
          = some { c0 := n <<< 2, c1 := 0x01, c2 := 0x00 } ∧
        ((n <<< 2 ||| ((w.dev_class.c2 <<< 16) ||| (w.dev_class.c1 <<< 8)))
            % 4294967296) &&& 0xff = n <<< 2 ∧
        ∃ rest,
          (handle_dev_set_minor_class_req K msg (some minor) data w).2.2.log
            = w.log ++
              [Event.hci_open_dev data.dev_id, Event.hci_read_class_of_dev dd,
               Event.write_local_class { c0 := n <<< 2, c1 := 0x01, c2 := 0x00 },
               Event.hci_write_class_of_dev dd
                 ((n <<< 2 ||| ((w.dev_class.c2 <<< 16) ||| (w.dev_class.c1 <<< 8)))
                   % 4294967296)] ++ rest) := by
  have hinv : (∀ c ∈ computer_minor_cls, ¬ strcasecmp_eq minor c = true) →
      handle_dev_set_minor_class_req K msg (some minor) data w
        = (some (Reply.failure K.BLUEZ_EDBUS_WRONG_PARAM), data, w) := by
    intro hno
    have hscan := (minor_class_scan_invalid_iff minor).mpr hno
    unfold handle_dev_set_minor_class_req
    simp [hscan, bluez_new_failure_msg]
  refine ⟨⟨?_, fun hno => by rw [hinv hno]⟩, hinv, ?_⟩
  · intro hreply
    by_contra hno
    have hvalid : minor_class_scan minor computer_minor_cls 0 0xFFFFFFFF ≠ 0xFFFFFFFF :=
      fun h => hno ((minor_class_scan_invalid_iff minor).mp h)
    unfold handle_dev_set_minor_class_req at hreply
    simp only [hvalid, if_false, World.emit] at hreply
    cases hopen : w.open_dev with
    | none => simp [hopen] at hreply
    | some dd =>
      cases hread : w.read_class_errno with
      | some errno =>
        simp [hopen, hread, bluez_new_failure_msg] at hreply
        exact hcol errno hreply
      | none =>
        cases hwrite : w.write_class_errno with
        | some errno =>
          simp [hopen, hread, hwrite, bluez_new_failure_msg] at hreply
          exact hcol errno hreply
        | none =>
          simp only [hopen, hread, hwrite, dbus_message_new_method_return] at hreply
          split at hreply <;> split at hreply <;> simp at hreply
  · intro n c hn hc
    obtain ⟨hscan, hn7⟩ := minor_class_scan_entry minor c n hn hc
    have ha : n <<< 2 < 256 := by rw [Nat.shiftLeft_eq]; omega
    refine ⟨hscan, ?_, ?_, ?_⟩
    · have h7 : n = 0 ∨ n = 1 ∨ n = 2 ∨ n = 3 ∨ n = 4 ∨ n = 5 ∨ n = 6 := by omega
      rcases h7 with rfl | rfl | rfl | rfl | rfl | rfl | rfl <;> decide
    · rw [Nat.shiftLeft_eq, Nat.shiftRight_eq_div_pow]; omega
    · intro dd hopen hread
      have heff := set_minor_class_effects K msg minor c n data w dd hn hc hopen hread
      exact ⟨heff.1, merged_low_byte (n <<< 2) w.dev_class.c1 w.dev_class.c2 ha, heff.2⟩

/-- C8, evaluated: `tablet` is in no letter case an entry of the table; the reply is the
failure `0x10003` and the world is the one before the call. -/
theorem set_minor_class_wrong_param_witness :
    handle_dev_set_minor_class_req sample_dbus_h (sample_msg "SetMinorClass" "s")
        (some "tablet") sample_data (sample_world { c0 := 0, c1 := 1, c2 := 5 })
      = (some (Reply.failure 0x10003), sample_data,
          sample_world { c0 := 0, c1 := 1, c2 := 5 }) :=
  (set_minor_class_wrong_param sample_dbus_h (sample_msg "SetMinorClass" "s") "tablet"
    sample_data (sample_world { c0 := 0, c1 := 1, c2 := 5 })
    (by
      intro errno h
      have h17 := congrArg (fun x => Nat.testBit x 17) h
      have a : Nat.testBit 0x20000 17 = true := by decide
      have b : Nat.testBit 0x10003 17 = false := by decide
      simp only [sample_dbus_h, Nat.testBit_or, a, b, Bool.true_or] at h17
      exact Bool.noConfusion h17)).2.1
    (by decide)

/-! ## Service classes -/

theorem and_one_shiftLeft_ne_zero (c2 i : Nat) :
    (c2 &&& (1 <<< i) ≠ 0) ↔ c2.testBit i = true := by
  rw [Nat.one_shiftLeft, Nat.and_two_pow]
  cases h : c2.testBit i <;> simp [Nat.pos_iff_ne_zero.mp (Nat.two_pow_pos i)]

theorem service_classes_loop_eq (c2 : Nat) :
    ∀ (l : List String) (i : Nat),
      service_classes_loop c2 l i
        = ((l.enumFrom i).filter (fun p => c2.testBit p.1)).map Prod.snd := by
  intro l
  induction l with
  | nil => intro i; rfl
  | cons s ss ih =>
    intro i
    unfold service_classes_loop
    by_cases hb : c2.testBit i = true
    · have hc : c2 &&& (1 <<< i) ≠ 0 := (and_one_shiftLeft_ne_zero c2 i).mpr hb
      simp [hc, hb, ih, List.enumFrom_cons, List.filter_cons]
    · have hc : ¬ (c2 &&& (1 <<< i) ≠ 0) := fun h => hb ((and_one_shiftLeft_ne_zero c2 i).mp h)
      simp only [hc, if_false, ih, List.enumFrom_cons, List.filter_cons]
      simp [hb]

theorem service_classes_loop_length (c2 : Nat) :
    ∀ (l : List String) (i : Nat),
      (service_classes_loop c2 l i).length
        = ((List.range' i l.length).filter (fun j => c2.testBit j)).length := by
  intro l
  induction l with
  | nil => intro i; rfl
  | cons s ss ih =>
    intro i
    unfold service_classes_loop
    by_cases hb : c2.testBit i = true
    · have hc : c2 &&& (1 <<< i) ≠ 0 := (and_one_shiftLeft_ne_zero c2 i).mpr hb
      simp [hc, hb, ih, List.range'_succ, List.filter_cons]
    · have hc : ¬ (c2 &&& (1 <<< i) ≠ 0) := fun h => hb ((and_one_shiftLeft_ne_zero c2 i).mp h)
      simp only [hc, if_false, ih, List.length_cons, List.range'_succ, List.filter_cons]
      simp [hb]

/-- C9: when the channel opens, the class is read and the reply is allocated,
`handle_dev_get_service_classes_req` replies with one array of strings, the list
`service_labels cls[2]`: the entries of `service_cls` (positioning, networking, rendering,
capturing, object transfer, audio, telephony, information) at the positions `i` in `0..7`
whose bit `i` is set in `cls[2]`, in table order. The list is a sub-list of the table, has
no duplicates, has as many entries as `cls[2]` has set bits among bits 0..7, and is empty
when none of them is set. -/
theorem get_service_classes_labels (K : dbus_h) (msg : DBusMessage) (data : hci_dbus_data)
    (w : World) (dd : Nat)
    (hopen : w.open_dev = some dd) (hread : w.read_class_errno = none)
    (halloc : w.method_return_null = false) :
    handle_dev_get_service_classes_req K msg data w
      = Except.ok
          (some (Reply.method_return [DBusArg.array_string (service_labels w.dev_class.c2)]),
           data,
           { w with log := w.log ++ [Event.hci_open_dev data.dev_id,
               Event.hci_read_class_of_dev dd, Event.hci_close_dev dd] }) ∧
    (service_labels w.dev_class.c2).Sublist service_cls ∧
    (service_labels w.dev_class.c2).Nodup ∧
    (service_labels w.dev_class.c2).length
      = ((List.range 8).filter (fun i => w.dev_class.c2.testBit i)).length ∧
    ((∀ i < 8, w.dev_class.c2.testBit i = false) → service_labels w.dev_class.c2 = []) := by
  have hloop : service_classes_loop w.dev_class.c2 service_cls 0
      = service_labels w.dev_class.c2 := by
    rw [service_classes_loop_eq]
    rfl
  have hsub : (service_labels w.dev_class.c2).Sublist service_cls := by
    have h := List.Sublist.map Prod.snd
      (List.filter_sublist (p := fun p => w.dev_class.c2.testBit p.1) service_cls.enum)
    simpa [service_labels, List.enum, List.enumFrom_map_snd] using h
  have hlen : (service_labels w.dev_class.c2).length
      = ((List.range 8).filter (fun i => w.dev_class.c2.testBit i)).length := by
    rw [← hloop, service_classes_loop_length, List.range_eq_range']
    rfl
  refine ⟨?_, hsub, List.Nodup.sublist hsub (by decide), hlen, ?_⟩
  · unfold handle_dev_get_service_classes_req
    simp only [World.emit, hopen, hread, dbus_message_new_method_return, halloc, hloop]
    simp [dbus_message_append_args]
  · intro hnone
    apply List.eq_nil_of_length_eq_zero
    rw [hlen, List.length_eq_zero, List.filter_eq_nil_iff]
    intro i hi
    simp only [List.mem_range] at hi
    simp [hnone i hi]

/-- C9, evaluated: `cls[2] = 0x25` has bits 0, 2 and 5 set. -/
theorem get_service_classes_labels_witness :
    handle_dev_get_service_classes_req sample_dbus_h (sample_msg "GetServiceClasses" "")
        sample_data (sample_world { c0 := 8, c1 := 1, c2 := 0x25 })
      = Except.ok
          (some (Reply.method_return
            [DBusArg.array_string ["positioning", "rendering", "audio"]]),
           sample_data,
           { sample_world { c0 := 8, c1 := 1, c2 := 0x25 } with
             log := [Event.hci_open_dev 0, Event.hci_read_class_of_dev 3,
                     Event.hci_close_dev 3] }) :=
  (get_service_classes_labels sample_dbus_h (sample_msg "GetServiceClasses" "") sample_data
    (sample_world { c0 := 8, c1 := 1, c2 := 0x25 }) 3 (by rfl) (by rfl) (by rfl)).1

/-! ## Scan mode -/

/-- C10: for every cached scan mode `m` that fits in 8 bits, the four mode strings being
pairwise different and the reply being allocated, `handle_dev_get_mode_req` replies with
one string, which is `MODE_OFF` iff `m == SCAN_DISABLED`, `MODE_CONNECTABLE` iff
`m == SCAN_PAGE`, `MODE_DISCOVERABLE` iff `m == (SCAN_PAGE | SCAN_INQUIRY)` and
`MODE_UNKNOWN` iff `m` is none of the three; `SCAN_INQUIRY` alone gives `MODE_UNKNOWN`, and
a value without the `SCAN_PAGE` bit never gives `MODE_DISCOVERABLE`. -/
theorem get_mode_labels (K : dbus_h) (msg : DBusMessage) (data : hci_dbus_data) (w : World)
    (hbyte : data.mode < 256) (halloc : w.method_return_null = false)
    (hdistinct :
      [K.MODE_OFF, K.MODE_CONNECTABLE, K.MODE_DISCOVERABLE, K.MODE_UNKNOWN].Nodup) :
    handle_dev_get_mode_req K msg data w
      = (some (Reply.method_return [DBusArg.string (scan_mode_of K data.mode)]), data, w) ∧
    (scan_mode_of K data.mode = K.MODE_OFF ↔ data.mode = SCAN_DISABLED) ∧
    (scan_mode_of K data.mode = K.MODE_CONNECTABLE ↔ data.mode = SCAN_PAGE) ∧
    (scan_mode_of K data.mode = K.MODE_DISCOVERABLE ↔ data.mode = (SCAN_PAGE ||| SCAN_INQUIRY)) ∧
    (scan_mode_of K data.mode = K.MODE_UNKNOWN ↔
      data.mode ≠ SCAN_DISABLED ∧ data.mode ≠ SCAN_PAGE ∧
        data.mode ≠ (SCAN_PAGE ||| SCAN_INQUIRY)) ∧
    (data.mode = SCAN_INQUIRY → scan_mode_of K data.mode = K.MODE_UNKNOWN) ∧
    (data.mode &&& SCAN_PAGE = 0 → scan_mode_of K data.mode ≠ K.MODE_DISCOVERABLE) := by
  simp only [List.nodup_cons, List.mem_cons, List.mem_singleton, not_or, List.not_mem_nil,
    not_false_eq_true, List.nodup_nil, and_true] at hdistinct
  obtain ⟨⟨h12, h13, h14⟩, ⟨h23, h24⟩, h34⟩ := hdistinct
  have h3 : (SCAN_PAGE ||| SCAN_INQUIRY) = 3 := by decide
  have hdisc : scan_mode_of K data.mode = K.MODE_DISCOVERABLE ↔
      data.mode = (SCAN_PAGE ||| SCAN_INQUIRY) := by
    unfold scan_mode_of
    simp only [h3]
    simp only [SCAN_DISABLED, SCAN_PAGE]
    split_ifs with a b c
    · simp [a, h13]
    · simp [b, h23]
    · simp [c]
    · simp [c, Ne.symm h34]
  refine ⟨?_, ?_, ?_, hdisc, ?_, ?_, ?_⟩
  · unfold handle_dev_get_mode_req
    simp [dbus_message_new_method_return, halloc, dbus_message_append_args,
      Nat.mod_eq_of_lt hbyte]
  · unfold scan_mode_of
    simp only [h3]
    simp only [SCAN_DISABLED, SCAN_PAGE]
    split_ifs with a b c
    · simp [a]
    · simp [a, Ne.symm h12]
    · simp [a, Ne.symm h13]
    · simp [a, Ne.symm h14]
  · unfold scan_mode_of
    simp only [h3]
    simp only [SCAN_DISABLED, SCAN_PAGE]
    split_ifs with a b c
    · simp [a, h12]
    · simp [b]
    · simp [b, Ne.symm h23]
    · simp [b, Ne.symm h24]
  · unfold scan_mode_of
    simp only [h3]
    simp only [SCAN_DISABLED, SCAN_PAGE]
    split_ifs with a b c
    · simp [a, h14]
    · simp [b, h24]
    · simp [c, h34]
    · simp [a, b, c]
  · intro hm
    unfold scan_mode_of
    simp [hm, SCAN_INQUIRY, SCAN_DISABLED, SCAN_PAGE]
  · intro hbit hm
    rw [hdisc, h3] at hm
    rw [hm] at hbit
    revert hbit
    decide

/-- C10, evaluated: the cached mode `SCAN_INQUIRY` is reported as `unknown`. -/
theorem get_mode_labels_witness :
    handle_dev_get_mode_req sample_dbus_h (sample_msg "GetMode" "")
        { sample_data with mode := SCAN_INQUIRY } (sample_world { c0 := 0, c1 := 1, c2 := 0 })
      = (some (Reply.method_return [DBusArg.string "unknown"]),
          { sample_data with mode := SCAN_INQUIRY },
          sample_world { c0 := 0, c1 := 1, c2 := 0 }) :=
  (get_mode_labels sample_dbus_h (sample_msg "GetMode" "")
    { sample_data with mode := SCAN_INQUIRY } (sample_world { c0 := 0, c1 := 1, c2 := 0 })
    (by decide) (by rfl) (by decide)).1

/-! ## Setting the scan mode -/

theorem scan_enable_writes_append (a b : List Event) :
    scan_enable_writes (a ++ b) = scan_enable_writes a ++ scan_enable_writes b := by
  induction a with
  | nil => rfl
  | cons e es ih => cases e <;> simp [scan_enable_writes, ih]

/-- The three values `hci_mode` can get. -/
theorem scan_mode_value_range (K : dbus_h) (scan_mode : String) (hci_mode : Nat)
    (h : scan_mode_value K scan_mode = some hci_mode) :
    hci_mode = 0 ∨ hci_mode = 2 ∨ hci_mode = 3 := by
  unfold scan_mode_value at h
  split_ifs at h
  · left; simpa [SCAN_DISABLED] using h.symm
  · right; left; simpa [SCAN_PAGE] using h.symm
  · right; right
    have h3 : (SCAN_PAGE ||| SCAN_INQUIRY) = 3 := by decide
    rw [h3] at h
    simpa using h.symm

/-- The handler on a valid label when the requested mode is the cached one: the descriptor
is opened and closed, nothing else. -/
theorem set_mode_same (K : dbus_h) (msg : DBusMessage) (scan_mode : String) (hci_mode : Nat)
    (data : hci_dbus_data) (w : World) (dd : Nat)
    (hlabel : scan_mode_value K scan_mode = some hci_mode)
    (hsame : data.mode % 256 = hci_mode) (hopen : w.open_dev = some dd) :
    handle_dev_set_mode_req K msg (some scan_mode) data w =
      (some (if w.method_return_null then Reply.error_out_of_memory
             else Reply.method_return []), data,
        { w with log := w.log ++ [Event.hci_open_dev data.dev_id, Event.hci_close_dev dd] }) := by
  unfold handle_dev_set_mode_req
  simp only [hlabel, World.emit, hopen, hsame, ne_eq, not_true_eq_false, if_false,
    set_mode_return, dbus_message_new_method_return]
  by_cases hnull : w.method_return_null = true
  · simp [hnull]
  · simp [hnull]

/-- The handler on a valid label when the requested mode is not the cached one and the
controller accepts the command: one `write_scan_enable` between opening and closing. -/
theorem set_mode_differs (K : dbus_h) (msg : DBusMessage) (scan_mode : String)
    (hci_mode : Nat) (data : hci_dbus_data) (w : World) (dd : Nat)
    (hlabel : scan_mode_value K scan_mode = some hci_mode)
    (hdiff : data.mode % 256 ≠ hci_mode) (hopen : w.open_dev = some dd)
    (herrno : w.scan_enable_errno = none) (hstatus : w.scan_enable_status % 256 = 0) :
    handle_dev_set_mode_req K msg (some scan_mode) data w =
      (some (if w.method_return_null then Reply.error_out_of_memory
             else Reply.method_return []), data,
        { w with log := w.log ++ [Event.hci_open_dev data.dev_id,
            Event.write_scan_enable dd hci_mode, Event.hci_close_dev dd] }) := by
  unfold handle_dev_set_mode_req
  simp only [hlabel, World.emit, hopen, hdiff, ne_eq, not_false_eq_true, if_true, herrno,
    hstatus, not_true_eq_false, if_false, set_mode_return, dbus_message_new_method_return]
  by_cases hnull : w.method_return_null = true
  · simp [hnull]
  · simp [hnull]

/-- The handler never assigns a field of `data`. -/
theorem set_mode_data (K : dbus_h) (msg : DBusMessage) (scan_mode : Option String)
    (data : hci_dbus_data) (w : World) :
    (handle_dev_set_mode_req K msg scan_mode data w).2.1 = data := by
  unfold handle_dev_set_mode_req set_mode_return
  cases scan_mode with
  | none => rfl
  | some label =>
    dsimp only
    cases scan_mode_value K label with
    | none => rfl
    | some hci_mode =>
      dsimp only [World.emit]
      cases w.open_dev with
      | none => rfl
      | some dd =>
        dsimp only
        repeat' split
        all_goals rfl

/-- C11, as stated, fails: with the cached mode `SCAN_PAGE` (Connectable) and a controller
that accepts every command, `handle_dev_set_mode_req("discoverable")` succeeds and leaves
the cached mode `SCAN_PAGE`; the same call repeated on the state it left sends the
write-scan-enable command with mode byte `0x03` a second time. -/
theorem set_mode_twice_writes_twice :
    (handle_dev_set_mode_req sample_dbus_h (sample_msg "SetMode" "s") (some "discoverable")
        sample_data (sample_world { c0 := 0, c1 := 1, c2 := 0 })).1
      = some (Reply.method_return []) ∧
    (handle_dev_set_mode_req sample_dbus_h (sample_msg "SetMode" "s") (some "discoverable")
        sample_data (sample_world { c0 := 0, c1 := 1, c2 := 0 })).2.1.mode = SCAN_PAGE ∧
    (handle_dev_set_mode_req sample_dbus_h (sample_msg "SetMode" "s") (some "discoverable")
        (handle_dev_set_mode_req sample_dbus_h (sample_msg "SetMode" "s") (some "discoverable")
          sample_data (sample_world { c0 := 0, c1 := 1, c2 := 0 })).2.1
        (handle_dev_set_mode_req sample_dbus_h (sample_msg "SetMode" "s") (some "discoverable")
          sample_data (sample_world { c0 := 0, c1 := 1, c2 := 0 })).2.2).2.2.log
      = [Event.hci_open_dev 0, Event.write_scan_enable 3 0x03, Event.hci_close_dev 3,
         Event.hci_open_dev 0, Event.write_scan_enable 3 0x03, Event.hci_close_dev 3] := by
  refine ⟨by decide, by decide, by decide⟩

/-- C11, amended: `handle_dev_set_mode_req` never changes the cached scan mode. For every
valid mode label and every initial state, against a controller that accepts every command,
one call sends one write-scan-enable command when the requested mode differs from the
cached one and none when it is the cached one. A second call with the same label sends no
command, so that the two calls send at most one in total, when the cached mode holds the
requested mode by then; run on the state the first call left, it sends what the first call
sent (two commands in total when the modes differ). -/
theorem set_mode_repeated (K : dbus_h) (msg : DBusMessage) (scan_mode : String)
    (hci_mode : Nat) (data : hci_dbus_data) (w : World) (dd : Nat)
    (hlabel : scan_mode_value K scan_mode = some hci_mode)
    (hopen : w.open_dev = some dd) (herrno : w.scan_enable_errno = none)
    (hstatus : w.scan_enable_status % 256 = 0) :
    (handle_dev_set_mode_req K msg (some scan_mode) data w).2.1 = data ∧
    scan_enable_writes (handle_dev_set_mode_req K msg (some scan_mode) data w).2.2.log
      = scan_enable_writes w.log ++
          (if data.mode % 256 = hci_mode then [] else [Event.write_scan_enable dd hci_mode]) ∧
    scan_enable_writes
        (handle_dev_set_mode_req K msg (some scan_mode)
          (handle_dev_set_mode_req K msg (some scan_mode) data w).2.1
          (handle_dev_set_mode_req K msg (some scan_mode) data w).2.2).2.2.log
      = scan_enable_writes w.log ++
          (if data.mode % 256 = hci_mode then []
           else [Event.write_scan_enable dd hci_mode, Event.write_scan_enable dd hci_mode]) ∧
    scan_enable_writes
        (handle_dev_set_mode_req K msg (some scan_mode) { data with mode := hci_mode }
          (handle_dev_set_mode_req K msg (some scan_mode) data w).2.2).2.2.log
      = scan_enable_writes (handle_dev_set_mode_req K msg (some scan_mode) data w).2.2.log ∧
    (scan_enable_writes
        (handle_dev_set_mode_req K msg (some scan_mode) { data with mode := hci_mode }
          (handle_dev_set_mode_req K msg (some scan_mode) data w).2.2).2.2.log).length
      ≤ (scan_enable_writes w.log).length + 1 := by
  have hcached : ({ data with mode := hci_mode } : hci_dbus_data).mode % 256 = hci_mode := by
    rcases scan_mode_value_range K scan_mode hci_mode hlabel with h | h | h <;> simp [h]
  by_cases hsame : data.mode % 256 = hci_mode
  · have h1 := set_mode_same K msg scan_mode hci_mode data w dd hlabel hsame hopen
    rw [h1]
    dsimp only
    have h2 := set_mode_same K msg scan_mode hci_mode data
      { w with log := w.log ++ [Event.hci_open_dev data.dev_id, Event.hci_close_dev dd] } dd
      hlabel hsame hopen
    have h3 := set_mode_same K msg scan_mode hci_mode { data with mode := hci_mode }
      { w with log := w.log ++ [Event.hci_open_dev data.dev_id, Event.hci_close_dev dd] } dd
      hlabel hcached hopen
    rw [h2, h3]
    simp [hsame, scan_enable_writes_append, scan_enable_writes]
  · have h1 := set_mode_differs K msg scan_mode hci_mode data w dd hlabel hsame hopen herrno
      hstatus
    rw [h1]
    dsimp only
    have h2 := set_mode_differs K msg scan_mode hci_mode data
      { w with log := w.log ++ [Event.hci_open_dev data.dev_id,
          Event.write_scan_enable dd hci_mode, Event.hci_close_dev dd] } dd
      hlabel hsame hopen herrno hstatus
    have h3 := set_mode_same K msg scan_mode hci_mode { data with mode := hci_mode }
      { w with log := w.log ++ [Event.hci_open_dev data.dev_id,
          Event.write_scan_enable dd hci_mode, Event.hci_close_dev dd] } dd
      hlabel hcached hopen
    rw [h2, h3]
    simp [hsame, scan_enable_writes_append, scan_enable_writes]

/-- C11 amended, evaluated: cached `SCAN_PAGE`, label `discoverable`; the first call sends
mode byte `0x03` once. -/
theorem set_mode_repeated_witness :
    scan_enable_writes
        (handle_dev_set_mode_req sample_dbus_h (sample_msg "SetMode" "s")
          (some "discoverable") sample_data
          (sample_world { c0 := 0, c1 := 1, c2 := 0 })).2.2.log
      = scan_enable_writes (sample_world { c0 := 0, c1 := 1, c2 := 0 }).log ++
          (if sample_data.mode % 256 = 3 then [] else [Event.write_scan_enable 3 3]) :=
  (set_mode_repeated sample_dbus_h (sample_msg "SetMode" "s") "discoverable" 3 sample_data
    (sample_world { c0 := 0, c1 := 1, c2 := 0 }) 3 (by decide) (by rfl) (by rfl) (by rfl)).2.1

/-- C12, as stated, fails: the cached mode is `SCAN_PAGE` and the label is `connectable`,
so the mode is unchanged, but `hci_open_dev` returns a negative value. The source opens
the descriptor before it compares the modes: the reply is `error_no_such_adapter`, not a
success. -/
theorem set_mode_unchanged_no_adapter :
    scan_mode_value sample_dbus_h "connectable" = some (sample_data.mode % 256) ∧
    handle_dev_set_mode_req sample_dbus_h (sample_msg "SetMode" "s") (some "connectable")
        sample_data { sample_world { c0 := 0, c1 := 1, c2 := 0 } with open_dev := none }
      = (some Reply.error_no_such_adapter, sample_data,
          { sample_world { c0 := 0, c1 := 1, c2 := 0 } with
            open_dev := none, log := [Event.hci_open_dev 0] }) := by
  refine ⟨by decide, by decide⟩

/-- C12, amended: whenever the label maps, ignoring letter case, to the scan value that is
the cached mode, `handle_dev_set_mode_req` sends no write-scan-enable command and leaves
the cached mode as it is, in every world. It opens the descriptor first: when
`hci_open_dev` returns a descriptor and the reply is allocated, it returns the method
return, having only opened and closed the descriptor, whatever `hci_send_req` would
return and whatever status the controller would give; when the reply cannot be allocated
it returns `error_out_of_memory`; when `hci_open_dev` fails it returns
`error_no_such_adapter`. -/
theorem set_mode_unchanged (K : dbus_h) (msg : DBusMessage) (scan_mode : String)
    (hci_mode : Nat) (data : hci_dbus_data) (w : World)
    (hlabel : scan_mode_value K scan_mode = some hci_mode)
    (hsame : data.mode % 256 = hci_mode) :
    (handle_dev_set_mode_req K msg (some scan_mode) data w).2.1 = data ∧
    scan_enable_writes (handle_dev_set_mode_req K msg (some scan_mode) data w).2.2.log
      = scan_enable_writes w.log ∧
    (∀ dd, w.open_dev = some dd → w.method_return_null = false →
      ∀ errno status,
        handle_dev_set_mode_req K msg (some scan_mode) data
            { w with scan_enable_errno := errno, scan_enable_status := status }
          = (some (Reply.method_return []), data,
              { w with scan_enable_errno := errno, scan_enable_status := status,
                       log := w.log ++ [Event.hci_open_dev data.dev_id,
                                        Event.hci_close_dev dd] })) ∧
    (∀ dd, w.open_dev = some dd → w.method_return_null = true →
      handle_dev_set_mode_req K msg (some scan_mode) data w
        = (some Reply.error_out_of_memory, data,
            { w with log := w.log ++ [Event.hci_open_dev data.dev_id,
                                      Event.hci_close_dev dd] })) ∧
    (w.open_dev = none →
      handle_dev_set_mode_req K msg (some scan_mode) data w
        = (some Reply.error_no_such_adapter, data,
            { w with log := w.log ++ [Event.hci_open_dev data.dev_id] })) := by
  refine ⟨set_mode_data K msg (some scan_mode) data w, ?_, ?_, ?_, ?_⟩
  · cases hopen : w.open_dev with
    | none =>
      unfold handle_dev_set_mode_req
      simp [hlabel, World.emit, hopen, scan_enable_writes_append, scan_enable_writes]
    | some dd =>
      rw [set_mode_same K msg scan_mode hci_mode data w dd hlabel hsame hopen]
      simp [scan_enable_writes_append, scan_enable_writes]
  · intro dd hopen halloc errno status
    rw [set_mode_same K msg scan_mode hci_mode data
      { w with scan_enable_errno := errno, scan_enable_status := status } dd hlabel hsame
      hopen]
    simp [halloc]
  · intro dd hopen hnull
    rw [set_mode_same K msg scan_mode hci_mode data w dd hlabel hsame hopen]
    simp [hnull]
  · intro hopen
    unfold handle_dev_set_mode_req
    simp [hlabel, World.emit, hopen]

/-- C12 amended, evaluated: cached `SCAN_PAGE`, label `Connectable`, on a controller that
would reject the command with status `0x0c`. -/
theorem set_mode_unchanged_witness :
    handle_dev_set_mode_req sample_dbus_h (sample_msg "SetMode" "s") (some "Connectable")
        sample_data
        { sample_world { c0 := 0, c1 := 1, c2 := 0 } with
          scan_enable_errno := none, scan_enable_status := 0x0c }
      = (some (Reply.method_return []), sample_data,
          { sample_world { c0 := 0, c1 := 1, c2 := 0 } with
            scan_enable_errno := none, scan_enable_status := 0x0c,
            log := [Event.hci_open_dev 0, Event.hci_close_dev 3] }) :=
  (set_mode_unchanged sample_dbus_h (sample_msg "SetMode" "s") "Connectable" 2 sample_data
    (sample_world { c0 := 0, c1 := 1, c2 := 0 }) (by decide) (by decide)).2.2.1
    3 (by rfl) (by rfl) none 0x0c

/-! ## Discovery -/

/-- C13: for every caller (the sender of the message is arbitrary, it may be the owner),
`handle_dev_discover_devices_req` called while a discovery is in progress
(`requestor_name` set) replies `error_discover_in_progress` and returns at once: the world
is unchanged, so no descriptor is opened and no command sent, and `data` is unchanged, so
the owner stays. -/
theorem discover_devices_in_progress (K : dbus_h) (msg : DBusMessage) (data : hci_dbus_data)
    (w : World) (owner : String) (hbusy : data.requestor_name = some owner) :
    handle_dev_discover_devices_req K msg data w
      = (some Reply.error_discover_in_progress, data, w) := by
  unfold handle_dev_discover_devices_req
  simp [hbusy]

/-- C13, evaluated: the owner `:1.7` itself asks again. -/
theorem discover_devices_in_progress_witness :
    handle_dev_discover_devices_req sample_dbus_h (sample_msg "DiscoverDevices" "")
        { sample_data with requestor_name := some ":1.7" }
        (sample_world { c0 := 0, c1 := 1, c2 := 0 })
      = (some Reply.error_discover_in_progress,
          { sample_data with requestor_name := some ":1.7" },
          sample_world { c0 := 0, c1 := 1, c2 := 0 }) :=
  discover_devices_in_progress sample_dbus_h (sample_msg "DiscoverDevices" "")
    { sample_data with requestor_name := some ":1.7" }
    (sample_world { c0 := 0, c1 := 1, c2 := 0 }) ":1.7" (by rfl)

/-- C15: `handle_dev_cancel_discovery_req` called by `B` (the sender) when no discovery is
in progress, or when the stored owner is not `B`, replies `error_not_authorized` and
returns at once: the world is unchanged, so no descriptor is opened and no command sent,
and `data` is unchanged, so the owner stays. In particular, after a discovery started by
`A`, a cancel by `B` different from `A` is refused and the owner is still `A`. -/
theorem cancel_discovery_not_owner (K : dbus_h) (msg : DBusMessage) :
    (∀ (data : hci_dbus_data) (w : World),
      (data.requestor_name = none ∨
        ∃ owner, data.requestor_name = some owner ∧ owner ≠ msg.sender) →
      handle_dev_cancel_discovery_req K msg data w
        = (some Reply.error_not_authorized, data, w)) ∧
    (∀ (start : DBusMessage) (data : hci_dbus_data) (w : World),
      (handle_dev_discover_devices_req K start data w).2.1.requestor_name
        = some start.sender →
      start.sender ≠ msg.sender →
      handle_dev_cancel_discovery_req K msg
          (handle_dev_discover_devices_req K start data w).2.1
          (handle_dev_discover_devices_req K start data w).2.2
        = (some Reply.error_not_authorized,
            (handle_dev_discover_devices_req K start data w).2.1,
            (handle_dev_discover_devices_req K start data w).2.2)) := by
  have hrefuse : ∀ (data : hci_dbus_data) (w : World),
      (data.requestor_name = none ∨
        ∃ owner, data.requestor_name = some owner ∧ owner ≠ msg.sender) →
      handle_dev_cancel_discovery_req K msg data w
        = (some Reply.error_not_authorized, data, w) := by
    intro data w hother
    unfold handle_dev_cancel_discovery_req
    rcases hother with hnone | ⟨owner, howner, hne⟩
    · simp [hnone]
    · simp [howner, hne]
  refine ⟨hrefuse, ?_⟩
  intro start data w howner hne
  exact hrefuse _ _ (Or.inr ⟨start.sender, howner, hne⟩)

/-- C15, evaluated: `:1.7` owns the discovery, `:1.9` asks to cancel it. -/
theorem cancel_discovery_not_owner_witness :
    handle_dev_cancel_discovery_req sample_dbus_h
        { sample_msg "CancelDiscovery" "" with sender := ":1.9" }
        { sample_data with requestor_name := some ":1.7" }
        (sample_world { c0 := 0, c1 := 1, c2 := 0 })
      = (some Reply.error_not_authorized,
          { sample_data with requestor_name := some ":1.7" },
          sample_world { c0 := 0, c1 := 1, c2 := 0 }) :=
  (cancel_discovery_not_owner sample_dbus_h
    { sample_msg "CancelDiscovery" "" with sender := ":1.9" }).1
    { sample_data with requestor_name := some ":1.7" }
    (sample_world { c0 := 0, c1 := 1, c2 := 0 })
    (Or.inr ⟨":1.7", by rfl, by decide⟩)

/-- C16: `handle_dev_cancel_discovery_req` called by the owner `A` (the sender) of the
discovery in progress: when `hci_open_dev` returns a descriptor and the inquiry-cancel
`hci_send_req` succeeds with status 0, the owner is cleared (Idle) and the reply is the
method return (the reply being allocated); when the descriptor cannot be opened, the
command fails or the status is not 0, the reply is a failure and `data` is unchanged, so
the owner is still `A`. -/
theorem cancel_discovery_owner (K : dbus_h) (msg : DBusMessage) (data : hci_dbus_data)
    (w : World) (howner : data.requestor_name = some msg.sender) :
    (∀ dd, w.open_dev = some dd → w.inquiry_cancel_errno = none →
      w.inquiry_cancel_status % 256 = 0 → w.method_return_null = false →
      handle_dev_cancel_discovery_req K msg data w
        = (some (Reply.method_return []), { data with requestor_name := none },
            { w with log := w.log ++ [Event.hci_open_dev data.dev_id,
                Event.inquiry_cancel dd, Event.hci_close_dev dd] })) ∧
    (w.open_dev = none →
      handle_dev_cancel_discovery_req K msg data w
        = (some Reply.error_no_such_adapter, data,
            { w with log := w.log ++ [Event.hci_open_dev data.dev_id] })) ∧
    (∀ dd errno, w.open_dev = some dd → w.inquiry_cancel_errno = some errno →
      handle_dev_cancel_discovery_req K msg data w
        = (some (Reply.failure (K.BLUEZ_ESYSTEM_OFFSET ||| errno)), data,
            { w with log := w.log ++ [Event.hci_open_dev data.dev_id,
                Event.inquiry_cancel dd, Event.hci_close_dev dd] })) ∧
    (∀ dd, w.open_dev = some dd → w.inquiry_cancel_errno = none →
      w.inquiry_cancel_status % 256 ≠ 0 →
      handle_dev_cancel_discovery_req K msg data w
        = (some (Reply.failure (K.BLUEZ_EBT_OFFSET ||| (w.inquiry_cancel_status % 256))), data,
            { w with log := w.log ++ [Event.hci_open_dev data.dev_id,
                Event.inquiry_cancel dd, Event.hci_close_dev dd] })) := by
  refine ⟨?_, ?_, ?_, ?_⟩
  · intro dd hopen herrno hstatus halloc
    unfold handle_dev_cancel_discovery_req
    simp only [howner, ne_eq, not_true_eq_false, if_false, World.emit, hopen, herrno, hstatus,
      dbus_message_new_method_return, halloc]
    simp
  · intro hopen
    unfold handle_dev_cancel_discovery_req
    simp [howner, World.emit, hopen]
  · intro dd errno hopen herrno
    unfold handle_dev_cancel_discovery_req
    simp only [howner, ne_eq, not_true_eq_false, if_false, World.emit, hopen, herrno,
      bluez_new_failure_msg]
    simp
  · intro dd hopen herrno hstatus
    unfold handle_dev_cancel_discovery_req
    simp only [howner, ne_eq, not_true_eq_false, if_false, World.emit, hopen, herrno, hstatus,
      not_false_eq_true, if_true, bluez_new_failure_msg]
    simp

/-- C16, evaluated: the owner `:1.7` cancels; the controller answers status `0x0c`, the
reply is a failure and `:1.7` is still the owner. -/
theorem cancel_discovery_owner_witness :
    handle_dev_cancel_discovery_req sample_dbus_h (sample_msg "CancelDiscovery" "")
        { sample_data with requestor_name := some ":1.7" }
        { sample_world { c0 := 0, c1 := 1, c2 := 0 } with inquiry_cancel_status := 0x0c }
      = (some (Reply.failure 0x0c),
          { sample_data with requestor_name := some ":1.7" },
          { sample_world { c0 := 0, c1 := 1, c2 := 0 } with
            inquiry_cancel_status := 0x0c,
            log := [Event.hci_open_dev 0, Event.inquiry_cancel 3, Event.hci_close_dev 3] }) :=
  (cancel_discovery_owner sample_dbus_h (sample_msg "CancelDiscovery" "")
    { sample_data with requestor_name := some ":1.7" }
    { sample_world { c0 := 0, c1 := 1, c2 := 0 } with inquiry_cancel_status := 0x0c }
    (by rfl)).2.2.2 3 (by rfl) (by rfl) (by decide)

/-! ## Removing a bonding -/

/-- C17: for a remote address with no line in the link key file and no active connection
(the `HCIGETCONNINFO` ioctl fails), once `hci_open_dev` has returned a descriptor and the
connection request and the reply are allocated, `handle_dev_remove_bonding_req` returns the
method return. The store deletion changes nothing, the controller key deletion is sent
and its result (`delete_key_errno`, arbitrary) is not looked at, the connection is looked
up, and the descriptor is closed: no `hci_disconnect`, no signal. -/
theorem remove_bonding_nothing_to_remove (K : dbus_h) (msg : DBusMessage) (addr : String)
    (data : hci_dbus_data) (w : World) (dd : Nat)
    (hkey : ∀ line ∈ w.linkkeys, line.1 ≠ addr) (hconn : w.conn_handle = none)
    (hopen : w.open_dev = some dd) (hmalloc : w.malloc_null = false)
    (halloc : w.method_return_null = false) :
    handle_dev_remove_bonding_req K msg addr data w
      = (some (Reply.method_return []), data,
          { w with log := w.log ++ [Event.hci_open_dev data.dev_id, Event.textfile_del addr,
              Event.hci_delete_stored_link_key dd addr, Event.get_conn_info dd addr,
              Event.close dd] }) := by
  have hfile : textfile_del w.linkkeys addr = w.linkkeys := by
    unfold textfile_del
    rw [List.filter_eq_self]
    intro line hline
    simpa using hkey line hline
  unfold handle_dev_remove_bonding_req
  simp only [World.emit, hopen, hfile, hmalloc, hconn, dbus_message_new_method_return, halloc]
  simp

/-- C17, evaluated: nothing is known about `00:11:22:33:44:55`, and the controller refuses
the key deletion. -/
theorem remove_bonding_nothing_to_remove_witness :
    handle_dev_remove_bonding_req sample_dbus_h (sample_msg "RemoveBonding" "s")
        "00:11:22:33:44:55" sample_data
        { sample_world { c0 := 0, c1 := 1, c2 := 0 } with delete_key_errno := some 5 }
      = (some (Reply.method_return []), sample_data,
          { sample_world { c0 := 0, c1 := 1, c2 := 0 } with
            delete_key_errno := some 5,
            log := [Event.hci_open_dev 0, Event.textfile_del "00:11:22:33:44:55",
              Event.hci_delete_stored_link_key 3 "00:11:22:33:44:55",
              Event.get_conn_info 3 "00:11:22:33:44:55", Event.close 3] }) :=
  remove_bonding_nothing_to_remove sample_dbus_h (sample_msg "RemoveBonding" "s")
    "00:11:22:33:44:55" sample_data
    { sample_world { c0 := 0, c1 := 1, c2 := 0 } with delete_key_errno := some 5 } 3
    (by decide) (by rfl) (by rfl) (by rfl) (by rfl)

/-- C18 fails on the code: the link key of `00:11:22:33:44:55` is stored and the device
has no active connection. `handle_dev_remove_bonding_req` deletes the key and returns the
method return, and the log of the call holds no `signal_sent`: the branch taken when the
`HCIGETCONNINFO` ioctl fails jumps over `dev_signal_factory`. With an active connection
(handle 42) the same call disconnects and sends the `DEV_SIG_BONDING_REMOVED` signal. -/
theorem remove_bonding_no_signal :
    handle_dev_remove_bonding_req sample_dbus_h (sample_msg "RemoveBonding" "s")
        "00:11:22:33:44:55" sample_data
        { sample_world { c0 := 0, c1 := 1, c2 := 0 } with
          linkkeys := [("00:11:22:33:44:55", "0123456789abcdef 0 4")] }
      = (some (Reply.method_return []), sample_data,
          { sample_world { c0 := 0, c1 := 1, c2 := 0 } with
            linkkeys := [],
            log := [Event.hci_open_dev 0, Event.textfile_del "00:11:22:33:44:55",
              Event.hci_delete_stored_link_key 3 "00:11:22:33:44:55",
              Event.get_conn_info 3 "00:11:22:33:44:55", Event.close 3] }) ∧
    handle_dev_remove_bonding_req sample_dbus_h (sample_msg "RemoveBonding" "s")
        "00:11:22:33:44:55" sample_data
        { sample_world { c0 := 0, c1 := 1, c2 := 0 } with
          linkkeys := [("00:11:22:33:44:55", "0123456789abcdef 0 4")],
          conn_handle := some 42 }
      = (some (Reply.method_return []), sample_data,
          { sample_world { c0 := 0, c1 := 1, c2 := 0 } with
            linkkeys := [], conn_handle := some 42,
            log := [Event.hci_open_dev 0, Event.textfile_del "00:11:22:33:44:55",
              Event.hci_delete_stored_link_key 3 "00:11:22:33:44:55",
              Event.get_conn_info 3 "00:11:22:33:44:55", Event.hci_disconnect 3 42,
              Event.signal_sent 0 "BondingRemoved" "00:11:22:33:44:55", Event.close 3] }) := by
  refine ⟨by decide, by decide⟩

/-! ## Setting the minor class: order of the writes -/

theorem set_minor_class_read_fails (K : dbus_h) (msg : DBusMessage) (minor : String)
    (data : hci_dbus_data) (w : World) (dd errno : Nat)
    (hvalid : minor_class_scan minor computer_minor_cls 0 0xFFFFFFFF ≠ 0xFFFFFFFF)
    (hopen : w.open_dev = some dd) (hread : w.read_class_errno = some errno) :
    handle_dev_set_minor_class_req K msg (some minor) data w =
      (some (Reply.failure (K.BLUEZ_ESYSTEM_OFFSET ||| errno)), data,
        { w with log := w.log ++ [Event.hci_open_dev data.dev_id,
            Event.hci_read_class_of_dev dd, Event.hci_close_dev dd] }) := by
  unfold handle_dev_set_minor_class_req
  simp only [hvalid, if_false, World.emit, hopen, hread]
  simp [bluez_new_failure_msg]

/-- C19: in `handle_dev_set_minor_class_req`, for every label that equals entry `n` of
`computer_minor_cls` ignoring letter case, the descriptor being open: when the class is
read, `write_local_class` with the new bytes `n << 2`, `0x01`, `0x00` comes in the log
before `hci_write_class_of_dev`, and the attribute store holds the new bytes after the
call whatever the hardware write does; when the hardware write fails, the reply is the
failure `BLUEZ_ESYSTEM_OFFSET | errno`, the store holds the new bytes, and after
`hci_write_class_of_dev` only the descriptor is closed, so no signal is sent; when the
class read fails, the reply is that failure too, the store is unchanged and nothing
follows the read but closing the descriptor. -/
theorem set_minor_class_store_first (K : dbus_h) (msg : DBusMessage) (minor c : String)
    (n : Nat) (data : hci_dbus_data) (w : World) (dd : Nat)
    (hn : computer_minor_cls[n]? = some c) (hc : strcasecmp_eq minor c = true)
    (hopen : w.open_dev = some dd) :
    (w.read_class_errno = none →
      (handle_dev_set_minor_class_req K msg (some minor) data w).2.2.local_class
        = some { c0 := n <<< 2, c1 := 0x01, c2 := 0x00 } ∧
      ∃ rest,
        (handle_dev_set_minor_class_req K msg (some minor) data w).2.2.log
          = w.log ++
            [Event.hci_open_dev data.dev_id, Event.hci_read_class_of_dev dd,
             Event.write_local_class { c0 := n <<< 2, c1 := 0x01, c2 := 0x00 },
             Event.hci_write_class_of_dev dd
               ((n <<< 2 ||| ((w.dev_class.c2 <<< 16) ||| (w.dev_class.c1 <<< 8)))
                 % 4294967296)] ++ rest) ∧
    (∀ errno, w.read_class_errno = none → w.write_class_errno = some errno →
      handle_dev_set_minor_class_req K msg (some minor) data w
        = (some (Reply.failure (K.BLUEZ_ESYSTEM_OFFSET ||| errno)), data,
            { w with
              local_class := some { c0 := n <<< 2, c1 := 0x01, c2 := 0x00 }
              log := w.log ++
                [Event.hci_open_dev data.dev_id, Event.hci_read_class_of_dev dd,
                 Event.write_local_class { c0 := n <<< 2, c1 := 0x01, c2 := 0x00 },
                 Event.hci_write_class_of_dev dd
                   ((n <<< 2 ||| ((w.dev_class.c2 <<< 16) ||| (w.dev_class.c1 <<< 8)))
                     % 4294967296),
                 Event.hci_close_dev dd] })) ∧
    (∀ errno, w.read_class_errno = some errno →
      handle_dev_set_minor_class_req K msg (some minor) data w
        = (some (Reply.failure (K.BLUEZ_ESYSTEM_OFFSET ||| errno)), data,
            { w with log := w.log ++ [Event.hci_open_dev data.dev_id,
                Event.hci_read_class_of_dev dd, Event.hci_close_dev dd] })) := by
  obtain ⟨hscan, hn7⟩ := minor_class_scan_entry minor c n hn hc
  have hvalid : minor_class_scan minor computer_minor_cls 0 0xFFFFFFFF ≠ 0xFFFFFFFF := by
    rw [hscan, Nat.shiftLeft_eq]; omega
  have ha : n <<< 2 < 256 := by rw [Nat.shiftLeft_eq]; omega
  have hlow := merged_low_byte (n <<< 2) w.dev_class.c1 w.dev_class.c2 ha
  refine ⟨?_, ?_, ?_⟩
  · intro hread
    exact set_minor_class_effects K msg minor c n data w dd hn hc hopen hread
  · intro errno hread hwrite
    rw [set_minor_class_write_fails K msg minor data w dd errno hvalid hopen hread hwrite,
      hscan]
    simp only [hlow]
  · intro errno hread
    exact set_minor_class_read_fails K msg minor data w dd errno hvalid hopen hread

/-- C19, evaluated: `server` on a controller holding `00 01 05` that fails the class write
with `errno` 5; the store holds `08 01 00`. -/
theorem set_minor_class_store_first_witness :
    handle_dev_set_minor_class_req sample_dbus_h (sample_msg "SetMinorClass" "s")
        (some "server") sample_data
        { sample_world { c0 := 0, c1 := 1, c2 := 5 } with write_class_errno := some 5 }
      = (some (Reply.failure (0x20000 ||| 5)), sample_data,
          { sample_world { c0 := 0, c1 := 1, c2 := 5 } with
            write_class_errno := some 5,
            local_class := some { c0 := 2 <<< 2, c1 := 0x01, c2 := 0x00 }
            log :=
              [Event.hci_open_dev 0, Event.hci_read_class_of_dev 3,
               Event.write_local_class { c0 := 2 <<< 2, c1 := 0x01, c2 := 0x00 },
               Event.hci_write_class_of_dev 3
                 ((2 <<< 2 ||| ((5 <<< 16) ||| (1 <<< 8))) % 4294967296),
               Event.hci_close_dev 3] }) :=
  (set_minor_class_store_first sample_dbus_h (sample_msg "SetMinorClass" "s") "server"
    "server" 2 sample_data
    { sample_world { c0 := 0, c1 := 1, c2 := 5 } with write_class_errno := some 5 } 3
    (by decide) (by decide) (by rfl)).2.1 5 (by rfl) (by rfl)

end Hcid
